import Mathlib

/-!
Verification development for the farm-management reconciliation pipeline.

Shallow embedding of the Python sources:
  app/services/class_monitoring.py   (Flow 2: class monitoring / change detection)
  app/services/horse_availability.py (Flow 3: availability calculator)
  app/services/schedule.py           (Flow 1: morning sync orchestrator)
  app/models/{entry,horse,rider,event,show,show_class,farm}.py (identity store)

Conventions of the embedding:
  - JSON payload values arrive already typed (`Option Int` / `Option String`);
    numeric Decimal columns are carried as their source string rendering, since
    no verified property inspects their arithmetic.
  - Database state is a record of row lists with a fresh-id counter; a UUID is
    modelled as a `Nat`. Timestamps (`created_at` / `updated_at`) are omitted.
  - A Python function that can raise is modelled with `Option` (`none` models
    the exception propagating, and, at a run boundary, the session rollback).
-/

namespace FarmApp

/-- Placeholder value the provider uses for an unplaced trip
(class_monitoring.py: `UNPLACED_PLACING = 100000`). -/
def UNPLACED_PLACING : Int := 100000

/-- Python `x or default` on an optional string: `None` and `""` are falsy. -/
def py_or (s : Option String) (d : String) : String :=
  match s with
  | some s => if s = "" then d else s
  | none => d

/-- Python `x or default` on a plain string: `""` is falsy. -/
def py_or_str (s d : String) : String :=
  if s = "" then d else s

/-- Model of `_safe_int`: API values are already typed in the model, so this is the
identity on `Option Int` (the str-to-int coercion branch is not needed). -/
def safe_int (v : Option Int) : Option Int := v

/-- Model of `_safe_decimal`: Decimal conversion, modelled as the identity on the
source string; the failure branch of `Decimal(str(v))` is not modelled. -/
def safe_decimal (v : Option String) : Option String := v

/-- Python `str.strip()` (ASCII whitespace), implemented structurally on the
character list so that proofs can evaluate it. -/
def py_strip (s : String) : String :=
  String.mk
    (((s.toList.dropWhile Char.isWhitespace).reverse.dropWhile Char.isWhitespace).reverse)

/-- Helper for `py_split_ws`: group a character list into maximal runs of
non-whitespace characters (the accumulator holds the current run reversed). -/
def split_ws_aux : List Char → List Char → List (List Char)
  | [], acc => if acc.isEmpty then [] else [acc.reverse]
  | c :: rest, acc =>
    if Char.isWhitespace c then
      if acc.isEmpty then split_ws_aux rest []
      else acc.reverse :: split_ws_aux rest []
    else split_ws_aux rest (c :: acc)

/-- Python `str.split()` with no argument: split on whitespace runs, no empty
tokens. -/
def py_split_ws (s : String) : List String :=
  (split_ws_aux s.toList []).map String.mk

/-- Model of `_safe_str`: strip, drop empty, truncate to `max_len` (default 50 code
points). -/
def safe_str (v : Option String) : Option String :=
  v.bind fun s =>
    let s := py_strip s
    if s = "" then none else some (String.mk (s.toList.take 50))

/-- Model of `_parse_time`: strip the string, mapping empty results to `None`. -/
def parse_time (s : Option String) : Option String :=
  s.bind fun s =>
    let t := py_strip s
    if t = "" then none else some t

/-- Model of `_normalize_time_for_comparison`: strip, and when the value still contains
a space keep only the last whitespace-separated token, so a stored
`YYYY-MM-DD HH:MM:SS` compares equal to a freshly fetched `HH:MM:SS`. -/
def normalize_time_for_comparison (s : Option String) : Option String :=
  match s with
  | none => none
  | some s =>
    let s := py_strip s
    if s = "" then none
    else
      let s :=
        if s.toList.contains ' ' then (py_split_ws s).getLastD ""
        else s
      if s = "" then none else some s

/-- Live per-trip record returned by the provider for a class
(the `trips` elements of the `get_class` payload). -/
structure Trip where
  entry_id : Option Int := none
  trip_id : Option Int := none
  order_of_go : Option Int := none
  placing : Option Int := none
  total_prize_money : Option String := none
  gone_in : Option Int := none
  scratch_trip : Option Int := none
  faults_one : Option String := none
  time_one : Option String := none
  time_fault_one : Option String := none
  faults_two : Option String := none
  time_two : Option String := none
  time_fault_two : Option String := none
  points_earned : Option String := none
  disqualify_status_one : Option String := none
  disqualify_status_two : Option String := none
  score1 : Option String := none
  score2 : Option String := none
  score3 : Option String := none
  score4 : Option String := none
  score5 : Option String := none
  score6 : Option String := none
deriving DecidableEq

/-- Model of `class_related_data` object of the `get_class` payload. -/
structure ClassRelatedData where
  status : Option String := none
  estimated_time : Option String := none
  actual_time : Option String := none
  total_trips : Option Int := none
  completed_trips : Option Int := none
  remaining_trips : Option Int := none
deriving DecidableEq

/-- Payload of one `get_class` call. -/
structure ClassData where
  class_related_data : Option ClassRelatedData := none
  trips : List Trip := []
deriving DecidableEq

/-- One row of the `entries` table (app/models/entry.py, class `Entry`). -/
structure EntryRow where
  id : Nat := 0
  horse_id : Nat := 0
  rider_id : Option Nat := none
  show_id : Option Nat := none
  event_id : Option Nat := none
  class_id : Option Nat := none
  api_entry_id : Option Int := none
  api_horse_id : Option Int := none
  api_rider_id : Option Int := none
  api_class_id : Option Int := none
  api_ring_id : Option Int := none
  api_trip_id : Option Int := none
  api_trainer_id : Option Int := none
  back_number : Option String := none
  order_of_go : Option Int := none
  status : String := "active"
  scratch_trip : Bool := false
  gone_in : Bool := false
  estimated_start : Option String := none
  actual_start : Option String := none
  scheduled_date : Option String := none
  class_status : Option String := none
  total_trips : Option Int := none
  completed_trips : Option Int := none
  remaining_trips : Option Int := none
  placing : Option Int := none
  points_earned : Option String := none
  total_prize_money : Option String := none
  faults_one : Option String := none
  time_one : Option String := none
  time_fault_one : Option String := none
  disqualify_status_one : Option String := none
  faults_two : Option String := none
  time_two : Option String := none
  time_fault_two : Option String := none
  disqualify_status_two : Option String := none
  score1 : Option String := none
  score2 : Option String := none
  score3 : Option String := none
  score4 : Option String := none
  score5 : Option String := none
  score6 : Option String := none
deriving DecidableEq

/-- Model of `_trip_for_entry`: first trip whose `entry_id` matches the stored
`api_entry_id`. -/
def trip_for_entry (trips : List Trip) (api_entry_id : Option Int) : Option Trip :=
  match api_entry_id with
  | none => none
  | some eid => trips.find? (fun t => t.entry_id == some eid)

/-- Model of `_entry_status`: derived coarse status, scratched over completed over
active. -/
def entry_status (scratch_trip gone_in : Bool) : String :=
  if scratch_trip then "scratched"
  else if gone_in then "completed"
  else "active"

/-- An `Entry` ORM object as loaded by `get_active_classes_and_entries`, with
the relation attributes the monitoring engine reads (`horse.name`,
`show_class.name`, `event.name`, `show.farm_id`). -/
structure LoadedEntry where
  row : EntryRow
  horse_name : Option String := none
  class_name : Option String := none
  event_name : Option String := none
  farm_id : Option Nat := none
deriving DecidableEq

/-- Structured change object built by `_process_one_class_with_data`
(the `changes` dicts, keyed by their `type` field). -/
inductive Change
  | statusChange (old new : Option String) (class_name : String)
  | timeChange (old new : String) (class_name : String)
  | progressUpdate (completed total : Int) (class_name : String)
  | result (horse : String) (placing : Int) (prize_money : Option String) (class_name : String)
  | horseCompleted (horse : String) (horse_id : String) (class_name : String)
  | scratched (horse : String) (class_name : String)
deriving DecidableEq

def Change.isStatusChange : Change → Bool
  | .statusChange .. => true
  | _ => false

def Change.isTimeChange : Change → Bool
  | .timeChange .. => true
  | _ => false

def Change.isProgressUpdate : Change → Bool
  | .progressUpdate .. => true
  | _ => false

def Change.isResult : Change → Bool
  | .result .. => true
  | _ => false

def Change.isHorseCompleted : Change → Bool
  | .horseCompleted .. => true
  | _ => false

def Change.isScratched : Change → Bool
  | .scratched .. => true
  | _ => false

/-- One element of the `alerts` list: a type tag and a formatted message. -/
structure Alert where
  type : String
  message : String
deriving DecidableEq

/-- One row appended to `notification_log` via `log_notification`
(the structured `payload` column is omitted; it duplicates the change). -/
structure Notification where
  farm_id : Nat
  source : String
  notification_type : String
  message : String
  entry_id : Option Nat := none
deriving DecidableEq

/-- Argument tuple of a call to `trigger_flow_3_if_needed`. -/
structure Flow3Call where
  horse_id : String
  horse_name : String
  completed_class_id : String
  show_id : String
deriving DecidableEq

/-- Model of `trigger_flow_3_if_needed` (class_monitoring.py, Step 7 placeholder): the
body only writes a debug log and `pass` — it neither calls
`run_flow_3_horse_availability` nor produces any notification. -/
def trigger_flow_3_if_needed (_horse_id _horse_name _completed_class_id _show_id : String) :
    List Notification := []

/-- Lookup used by the alert formatters: the dict comprehension over `trips`
keyed by `entry_id` (truthiness drops `None` and `0`; a duplicate key keeps
the last trip), then `entry_id_to_trip.get(api_eid) if api_eid else None`. -/
def trip_lookup (trips : List Trip) (api_eid : Option Int) : Option Trip :=
  match api_eid with
  | none => none
  | some eid =>
    if eid = 0 then none
    else ((trips.filter (fun t => t.entry_id == some eid)).filter
      (fun t => t.entry_id != some 0)).getLast?

/-- Model of `_format_alert_status_change`: Class Completed / Class Started / fallback
message. -/
def format_alert_status_change (class_name : String) (new_status : Option String)
    (our_entries : List LoadedEntry) (trips : List Trip) (ring_name : String) : String :=
  let class_name := py_or_str class_name "Unknown Class"
  let new_status := (new_status.getD "")
  if new_status = "Completed" then
    let header := ["🏁 Class Completed", "", "📋 " ++ class_name, "📍 " ++ ring_name, "", "Our Results:"]
    let lines := our_entries.map fun e =>
      let horse_name := py_or e.horse_name "Unknown"
      match trip_lookup trips e.row.api_entry_id with
      | some trip =>
        match trip.placing with
        | some placing =>
          if 0 < placing ∧ placing < UNPLACED_PLACING then
            "  " ++ horse_name ++ " — Place #" ++ toString placing ++ ", $"
              ++ py_or trip.total_prize_money "0"
          else "  " ++ horse_name ++ " — No placing"
        | none => "  " ++ horse_name ++ " — No placing"
      | none => "  " ++ horse_name
    String.intercalate "\n" (header ++ lines)
  else if new_status = "Underway" ∨ new_status = "In Progress" then
    let horse_list := our_entries.map fun e => py_or e.horse_name "Unknown"
    let order_list := our_entries.map fun e =>
      match trip_lookup trips e.row.api_entry_id with
      | some trip =>
        match trip.order_of_go with
        | some o => toString o
        | none => "unk"
      | none => "unk"
    "🟢 Class Started\n\n"
      ++ "📋 " ++ class_name ++ "\n"
      ++ "📍 " ++ ring_name ++ "\n"
      ++ "🐴 Our horses: " ++ String.intercalate ", " horse_list ++ "\n"
      ++ "#️⃣ Order: " ++ String.intercalate ", " order_list
  else
    "Status: " ++ new_status ++ "\n\n📋 " ++ class_name ++ "\n📍 " ++ ring_name

/-- Model of `_format_alert_time_change`. -/
def format_alert_time_change (class_name old_t new_t ring_name : String) : String :=
  "⏰ Time Change\n\n"
    ++ "📋 " ++ py_or_str class_name "Unknown Class" ++ "\n"
    ++ "📍 " ++ ring_name ++ "\n"
    ++ "🕐 " ++ py_or_str old_t "—" ++ " → " ++ py_or_str new_t "—"

/-- Model of `_format_alert_result`. -/
def format_alert_result (horse class_name : String) (placing : Int)
    (prize_money : Option String) : String :=
  "🏆 Result!\n\n"
    ++ "🐴 " ++ py_or_str horse "Unknown" ++ "\n"
    ++ "📋 " ++ py_or_str class_name "Unknown Class" ++ "\n"
    ++ "🥇 Place: #" ++ toString placing ++ "\n"
    ++ "💰 Prize: $" ++ py_or prize_money "0"

/-- Model of `_format_alert_horse_completed`. -/
def format_alert_horse_completed (horse class_name : String)
    (faults time_s : Option String) : String :=
  "✅ Trip Completed\n\n"
    ++ "🐴 " ++ py_or_str horse "Unknown" ++ "\n"
    ++ "📋 " ++ py_or_str class_name "Unknown Class" ++ "\n"
    ++ "📊 Faults: " ++ faults.getD "—" ++ " | Time: " ++ time_s.getD "—" ++ "s"

/-- Model of `_format_alert_scratched`. -/
def format_alert_scratched (horse class_name : String) : String :=
  "❌ Horse Scratched\n\n"
    ++ "🐴 " ++ py_or_str horse "Unknown" ++ "\n"
    ++ "📋 " ++ py_or_str class_name "Unknown Class"

/-- Model of `_format_alert_progress`. -/
def format_alert_progress (class_name : String) (completed total : Int)
    (ring_name : String) : String :=
  "📊 Progress Update\n\n"
    ++ "📋 " ++ py_or_str class_name "Unknown Class" ++ "\n"
    ++ "📍 " ++ ring_name ++ "\n"
    ++ "Completed: " ++ toString completed ++ "/" ++ toString total

/-- Class-level context computed by `_process_one_class_with_data` before its
entry loop (the local variables read inside the loop body). -/
structure ClassCtx where
  farm_id : Option Nat
  class_name : String
  ring_name : String
  api_status : Option String
  api_estimated : Option String
  api_actual : Option String
  api_total_trips : Option Int
  api_completed_trips : Option Int
  api_remaining_trips : Option Int
deriving DecidableEq

/-- Output of one iteration of the entry loop of
`_process_one_class_with_data`. -/
structure EntryStep where
  updated : Nat
  changes : List Change
  alerts : List Alert
  logs : List Notification
  flow3 : List Flow3Call
  row : EntryRow
deriving DecidableEq

/-- RESULT block of the entry loop: fires only for a real placing — neither
the unplaced sentinel nor zero — that differs from the persisted placing. -/
def result_part (ctx : ClassCtx) (e : LoadedEntry) (trip : Trip) :
    List Change × List Alert × List Notification :=
  let horse_name := py_or e.horse_name "Unknown"
  let prize := trip.total_prize_money
  match safe_int trip.placing with
  | some p =>
    if e.row.placing ≠ some p ∧ 0 < p ∧ p < UNPLACED_PLACING then
      let ch := Change.result horse_name p prize ctx.class_name
      let msg := format_alert_result horse_name ctx.class_name p prize
      ([ch], [⟨"RESULT", msg⟩],
        match ctx.farm_id with
        | some fid => [⟨fid, "class_monitoring", "RESULT", msg, some e.row.id⟩]
        | none => [])
    else ([], [], [])
  | none => ([], [], [])

/-- HORSE_COMPLETED block of the entry loop: fires when the trip gone-in flag
is set but the persisted row is not yet gone_in; also records the
`trigger_flow_3_if_needed` call made in that branch. -/
def horse_completed_part (ctx : ClassCtx) (e : LoadedEntry) (trip : Trip) :
    List Change × List Alert × List Notification × List Flow3Call :=
  let horse_name := py_or e.horse_name "Unknown"
  if (trip.gone_in == some 1) && !e.row.gone_in then
    let ch := Change.horseCompleted horse_name (toString e.row.horse_id) ctx.class_name
    let msg := format_alert_horse_completed horse_name ctx.class_name
      trip.faults_one trip.time_one
    ([ch], [⟨"HORSE_COMPLETED", msg⟩],
      (match ctx.farm_id with
      | some fid => [⟨fid, "class_monitoring", "HORSE_COMPLETED", msg, some e.row.id⟩]
      | none => []),
      [⟨toString e.row.horse_id, horse_name,
        (match e.row.class_id with | some c => toString c | none => ""),
        (match e.row.show_id with | some s => toString s | none => "")⟩])
  else ([], [], [], [])

/-- SCRATCHED block of the entry loop. -/
def scratched_part (ctx : ClassCtx) (e : LoadedEntry) (trip : Trip) :
    List Change × List Alert × List Notification :=
  let horse_name := py_or e.horse_name "Unknown"
  if (trip.scratch_trip == some 1) && !e.row.scratch_trip then
    let ch := Change.scratched horse_name ctx.class_name
    let msg := format_alert_scratched horse_name ctx.class_name
    ([ch], [⟨"SCRATCHED", msg⟩],
      match ctx.farm_id with
      | some fid => [⟨fid, "class_monitoring", "SCRATCHED", msg, some e.row.id⟩]
      | none => [])
  else ([], [], [])

/-- One iteration of the entry loop of `_process_one_class_with_data`
(class_monitoring.py, the `for entry in entries` body): match the trip by
`api_entry_id`, emit RESULT / HORSE_COMPLETED / SCRATCHED changes, then
overwrite every live field of the entry row. -/
def process_entry (ctx : ClassCtx) (trips : List Trip) (e : LoadedEntry) : EntryStep :=
  match trip_for_entry trips e.row.api_entry_id with
  | none => { updated := 0, changes := [], alerts := [], logs := [], flow3 := [], row := e.row }
  | some trip =>
    let gone_in := trip.gone_in == some 1
    let scratch_trip := trip.scratch_trip == some 1
    let placing := safe_int trip.placing
    let prize := trip.total_prize_money
    let resultPart := result_part ctx e trip
    let completedPart := horse_completed_part ctx e trip
    let scratchedPart := scratched_part ctx e trip
    let row := { e.row with
      class_status := ctx.api_status
      estimated_start := ctx.api_estimated
      actual_start := ctx.api_actual
      total_trips := ctx.api_total_trips
      completed_trips := ctx.api_completed_trips
      remaining_trips := ctx.api_remaining_trips
      api_trip_id := safe_int trip.trip_id
      order_of_go := safe_int trip.order_of_go
      placing := placing
      faults_one := safe_decimal trip.faults_one
      time_one := safe_decimal trip.time_one
      time_fault_one := safe_decimal trip.time_fault_one
      faults_two := safe_decimal trip.faults_two
      time_two := safe_decimal trip.time_two
      time_fault_two := safe_decimal trip.time_fault_two
      total_prize_money := safe_decimal prize
      points_earned := safe_decimal trip.points_earned
      gone_in := gone_in
      scratch_trip := scratch_trip
      disqualify_status_one := safe_str trip.disqualify_status_one
      disqualify_status_two := safe_str trip.disqualify_status_two
      score1 := safe_decimal trip.score1
      score2 := safe_decimal trip.score2
      score3 := safe_decimal trip.score3
      score4 := safe_decimal trip.score4
      score5 := safe_decimal trip.score5
      score6 := safe_decimal trip.score6
      status := entry_status scratch_trip gone_in }
    { updated := 1
      changes := resultPart.1 ++ completedPart.1 ++ scratchedPart.1
      alerts := resultPart.2.1 ++ completedPart.2.1 ++ scratchedPart.2.1
      logs := resultPart.2.2 ++ completedPart.2.2.1 ++ scratchedPart.2.2
      flow3 := completedPart.2.2.2
      row := row }

/-- Result of `_process_one_class_with_data`: the returned
`(updated, changes, alerts)` triple, plus the notification rows added to the
session, the recorded `trigger_flow_3_if_needed` calls, and the entry rows
after the in-place updates. -/
structure ProcessResult where
  updated : Nat
  changes : List Change
  alerts : List Alert
  logs : List Notification
  flow3 : List Flow3Call
  rows : List EntryRow
deriving DecidableEq

/-- STATUS_CHANGE block of `_process_one_class_with_data`: emit unless the new
status equals the persisted one or is "Not Started" (start-of-day noise). -/
def status_change_part (first : LoadedEntry) (entries : List LoadedEntry)
    (trips : List Trip) (farm_id : Option Nat) (class_name ring_name : String)
    (api_status : Option String) : List Change × List Alert × List Notification :=
  if api_status ≠ first.row.class_status then
    if api_status = some "Not Started" then ([], [], [])
    else
      let ch := Change.statusChange first.row.class_status api_status class_name
      let msg := format_alert_status_change class_name api_status entries trips ring_name
      ([ch], [⟨"STATUS_CHANGE", msg⟩],
        match farm_id with
        | some fid => [⟨fid, "class_monitoring", "STATUS_CHANGE", msg, some first.row.id⟩]
        | none => [])
  else ([], [], [])

/-- TIME_CHANGE block of `_process_one_class_with_data`: compare the persisted
and fetched estimated starts after `_normalize_time_for_comparison`; never
fires when the fetched value is `None`. -/
def time_change_part (first : LoadedEntry) (farm_id : Option Nat)
    (class_name ring_name : String) (api_estimated : Option String) :
    List Change × List Alert × List Notification :=
  let norm_old_time := normalize_time_for_comparison first.row.estimated_start
  let norm_new_time := normalize_time_for_comparison api_estimated
  match api_estimated with
  | some newT =>
    if norm_old_time ≠ norm_new_time then
      let oldT := py_or first.row.estimated_start "—"
      let ch := Change.timeChange oldT newT class_name
      let msg := format_alert_time_change class_name oldT newT ring_name
      ([ch], [⟨"TIME_CHANGE", msg⟩],
        match farm_id with
        | some fid => [⟨fid, "class_monitoring", "TIME_CHANGE", msg, some first.row.id⟩]
        | none => [])
    else ([], [], [])
  | none => ([], [], [])

/-- PROGRESS_UPDATE block of `_process_one_class_with_data`. -/
def progress_update_part (first : LoadedEntry) (farm_id : Option Nat)
    (class_name ring_name : String) (api_total_trips api_completed_trips : Option Int) :
    List Change × List Alert × List Notification :=
  match api_completed_trips with
  | some c =>
    if some c ≠ first.row.completed_trips then
      let total := api_total_trips.getD 0
      let ch := Change.progressUpdate c total class_name
      let msg := format_alert_progress class_name c total ring_name
      ([ch], [⟨"PROGRESS_UPDATE", msg⟩],
        match farm_id with
        | some fid => [⟨fid, "class_monitoring", "PROGRESS_UPDATE", msg, some first.row.id⟩]
        | none => [])
    else ([], [], [])
  | none => ([], [], [])

/-- Model of `_process_one_class_with_data`: class-level STATUS_CHANGE / TIME_CHANGE /
PROGRESS_UPDATE detection on the first entry, then the per-entry loop. When
`class_data` is `none` (a failed fetch) nothing is changed or emitted. -/
def process_one_class_with_data (entries : List LoadedEntry)
    (class_data : Option ClassData) : ProcessResult :=
  match entries, class_data with
  | [], _ => { updated := 0, changes := [], alerts := [], logs := [], flow3 := [], rows := [] }
  | first :: rest, none =>
    { updated := 0, changes := [], alerts := [], logs := [], flow3 := [],
      rows := (first :: rest).map (·.row) }
  | first :: rest, some cd =>
    let farm_id := first.farm_id
    let class_name := py_or first.class_name "Unknown Class"
    let ring_name := py_or first.event_name "Unknown Ring"
    let crd := cd.class_related_data.getD {}
    let trips := cd.trips
    let api_status := safe_str crd.status
    let api_estimated := parse_time crd.estimated_time
    let api_actual := parse_time crd.actual_time
    let api_total_trips := safe_int crd.total_trips
    let api_completed_trips := safe_int crd.completed_trips
    let api_remaining_trips := safe_int crd.remaining_trips
    let statusPart := status_change_part first (first :: rest) trips farm_id
      class_name ring_name api_status
    let timePart := time_change_part first farm_id class_name ring_name api_estimated
    let progressPart := progress_update_part first farm_id class_name ring_name
      api_total_trips api_completed_trips
    let ctx : ClassCtx :=
      ⟨farm_id, class_name, ring_name, api_status, api_estimated, api_actual,
        api_total_trips, api_completed_trips, api_remaining_trips⟩
    let steps := (first :: rest).map (process_entry ctx trips)
    { updated := (steps.map (·.updated)).sum
      changes := statusPart.1 ++ timePart.1 ++ progressPart.1 ++ (steps.map (·.changes)).flatten
      alerts := statusPart.2.1 ++ timePart.2.1 ++ progressPart.2.1 ++ (steps.map (·.alerts)).flatten
      logs := statusPart.2.2 ++ timePart.2.2 ++ progressPart.2.2 ++ (steps.map (·.logs)).flatten
      flow3 := (steps.map (·.flow3)).flatten
      rows := steps.map (·.row) }

/-- One grouped task of a Flow 2 run: the distinct
`(api_class_id, show_id)` group produced by `get_active_classes_and_entries`,
carrying the show UUID, the external show id, and the group entries. -/
structure MonitorTask where
  show_id : Nat
  api_show_id : Int
  entries : List LoadedEntry
deriving DecidableEq

/-- Model of `_fetch_class_data` applied to one task: `get_class(entries[0].api_class_id,
api_show_id, ...)`, where an adapter error (or any exception resolved by
`asyncio.gather(..., return_exceptions=True)`) becomes `none`. Tasks built by
`get_active_classes_and_entries` always have a nonempty entry list with
`api_class_id` set; the fallback arms are unreachable there. -/
def task_fetch (fetch : Int → Int → Option ClassData) (t : MonitorTask) : Option ClassData :=
  match t.entries with
  | [] => none
  | e :: _ =>
    match e.row.api_class_id with
    | some cid => fetch cid t.api_show_id
    | none => none

/-- Result of `run_class_monitoring`: the response summary fields, the
structured changes, formatted alerts, logged notifications, recorded Flow 3
trigger calls, and the committed entry rows. -/
structure MonitorRun where
  classes_checked : Nat
  entries_updated : Nat
  changes : List Change
  alerts : List Alert
  logs : List Notification
  flow3 : List Flow3Call
  rows : List EntryRow
deriving DecidableEq

/-- Model of `run_class_monitoring` (class_monitoring.py) from the point where the
grouped tasks exist: fetch every class (failures resolved to `none`), then
process the fetch results strictly sequentially and commit once. -/
def run_class_monitoring (fetch : Int → Int → Option ClassData)
    (tasks : List MonitorTask) : MonitorRun :=
  let results := tasks.map fun t => process_one_class_with_data t.entries (task_fetch fetch t)
  { classes_checked := tasks.length
    entries_updated := (results.map (·.updated)).sum
    changes := (results.map (·.changes)).flatten
    alerts := (results.map (·.alerts)).flatten
    logs := (results.map (·.logs)).flatten
    flow3 := (results.map (·.flow3)).flatten
    rows := (results.map (·.rows)).flatten }

/-! Helper lemmas about the entry loop. -/

lemma result_part_changes (ctx : ClassCtx) (e : LoadedEntry) (trip : Trip) :
    (result_part ctx e trip).1 =
      match trip.placing with
      | some p =>
        if e.row.placing ≠ some p ∧ 0 < p ∧ p < UNPLACED_PLACING then
          [Change.result (py_or e.horse_name "Unknown") p trip.total_prize_money
            ctx.class_name]
        else []
      | none => [] := by
  unfold result_part safe_int
  split
  · split <;> rfl
  · rfl

lemma horse_completed_part_changes (ctx : ClassCtx) (e : LoadedEntry) (trip : Trip) :
    (horse_completed_part ctx e trip).1 =
      if (trip.gone_in == some 1) && !e.row.gone_in then
        [Change.horseCompleted (py_or e.horse_name "Unknown")
          (toString e.row.horse_id) ctx.class_name]
      else [] := by
  unfold horse_completed_part
  split <;> rfl

lemma horse_completed_part_flow3 (ctx : ClassCtx) (e : LoadedEntry) (trip : Trip) :
    (horse_completed_part ctx e trip).2.2.2 =
      if (trip.gone_in == some 1) && !e.row.gone_in then
        [⟨toString e.row.horse_id, py_or e.horse_name "Unknown",
          (match e.row.class_id with | some c => toString c | none => ""),
          (match e.row.show_id with | some s => toString s | none => "")⟩]
      else [] := by
  unfold horse_completed_part
  split <;> rfl

lemma scratched_part_changes (ctx : ClassCtx) (e : LoadedEntry) (trip : Trip) :
    (scratched_part ctx e trip).1 =
      if (trip.scratch_trip == some 1) && !e.row.scratch_trip then
        [Change.scratched (py_or e.horse_name "Unknown") ctx.class_name]
      else [] := by
  unfold scratched_part
  split <;> rfl

lemma process_entry_changes (ctx : ClassCtx) (trips : List Trip) (e : LoadedEntry) :
    (process_entry ctx trips e).changes =
      match trip_for_entry trips e.row.api_entry_id with
      | some trip => (result_part ctx e trip).1 ++ (horse_completed_part ctx e trip).1
          ++ (scratched_part ctx e trip).1
      | none => [] := by
  cases h : trip_for_entry trips e.row.api_entry_id
  all_goals unfold process_entry
  all_goals rw [h]

lemma process_entry_flow3 (ctx : ClassCtx) (trips : List Trip) (e : LoadedEntry) :
    (process_entry ctx trips e).flow3 =
      match trip_for_entry trips e.row.api_entry_id with
      | some trip => (horse_completed_part ctx e trip).2.2.2
      | none => [] := by
  cases h : trip_for_entry trips e.row.api_entry_id
  all_goals unfold process_entry
  all_goals rw [h]

lemma process_entry_filter_timeChange (ctx : ClassCtx) (trips : List Trip) (e : LoadedEntry) :
    (process_entry ctx trips e).changes.filter Change.isTimeChange = [] := by
  rw [process_entry_changes]
  cases h : trip_for_entry trips e.row.api_entry_id with
  | none => rfl
  | some trip =>
    have hA : (result_part ctx e trip).1.filter Change.isTimeChange = [] := by
      rw [result_part_changes]
      cases hq : trip.placing
      · rfl
      · split
        all_goals first
        | rfl
        | (split <;> rfl)
    have hB : (horse_completed_part ctx e trip).1.filter Change.isTimeChange = [] := by
      rw [horse_completed_part_changes]; split <;> rfl
    have hC : (scratched_part ctx e trip).1.filter Change.isTimeChange = [] := by
      rw [scratched_part_changes]; split <;> rfl
    rw [List.filter_append, List.filter_append, hA, hB, hC]
    rfl

lemma flatten_filter_nil {p : Change → Bool} (l : List (List Change))
    (h : ∀ cs ∈ l, cs.filter p = []) : l.flatten.filter p = [] := by
  induction l with
  | nil => simp
  | cons x xs ih =>
    simp only [List.flatten_cons, List.filter_append]
    rw [h x (by simp), ih (fun cs hcs => h cs (by simp [hcs]))]
    simp

lemma entry_steps_filter_timeChange (ctx : ClassCtx) (trips : List Trip)
    (es : List LoadedEntry) :
    (((es.map (process_entry ctx trips)).map (·.changes)).flatten).filter
      Change.isTimeChange = [] := by
  apply flatten_filter_nil
  intro cs hcs
  simp only [List.mem_map] at hcs
  obtain ⟨a, ⟨e, _, rfl⟩, rfl⟩ := hcs
  exact process_entry_filter_timeChange ctx trips e

lemma status_change_part_filter_timeChange (first : LoadedEntry)
    (entries : List LoadedEntry) (trips : List Trip) (farm_id : Option Nat)
    (class_name ring_name : String) (api_status : Option String) :
    (status_change_part first entries trips farm_id class_name ring_name
      api_status).1.filter Change.isTimeChange = [] := by
  unfold status_change_part
  split <;> [skip; simp] <;> split <;> simp [Change.isTimeChange]

lemma progress_update_part_filter_timeChange (first : LoadedEntry)
    (farm_id : Option Nat) (class_name ring_name : String)
    (api_total_trips api_completed_trips : Option Int) :
    (progress_update_part first farm_id class_name ring_name api_total_trips
      api_completed_trips).1.filter Change.isTimeChange = [] := by
  unfold progress_update_part
  split <;> [skip; simp] <;> split <;> simp [Change.isTimeChange]

lemma time_change_part_changes (first : LoadedEntry) (farm_id : Option Nat)
    (class_name ring_name : String) (api_estimated : Option String) :
    (time_change_part first farm_id class_name ring_name api_estimated).1 =
      match api_estimated with
      | some newT =>
        if normalize_time_for_comparison first.row.estimated_start ≠
            normalize_time_for_comparison (some newT) then
          [Change.timeChange (py_or first.row.estimated_start "—") newT class_name]
        else []
      | none => [] := by
  unfold time_change_part
  repeat' split
  all_goals simp_all

/-- The TIME_CHANGE changes of one processed class: exactly one when the
fetched estimated time parses and normalizes differently from the persisted
one, none otherwise. -/
lemma process_one_class_filter_timeChange (first : LoadedEntry)
    (rest : List LoadedEntry) (cd : ClassData) :
    (process_one_class_with_data (first :: rest) (some cd)).changes.filter
        Change.isTimeChange =
      match parse_time (cd.class_related_data.getD {}).estimated_time with
      | some newT =>
        if normalize_time_for_comparison first.row.estimated_start ≠
            normalize_time_for_comparison (some newT) then
          [Change.timeChange (py_or first.row.estimated_start "—") newT
            (py_or first.class_name "Unknown Class")]
        else []
      | none => [] := by
  simp only [process_one_class_with_data]
  simp only [List.filter_append, entry_steps_filter_timeChange, List.append_nil,
    status_change_part_filter_timeChange, progress_update_part_filter_timeChange,
    List.nil_append]
  rw [show (time_change_part first first.farm_id (py_or first.class_name "Unknown Class")
      (py_or first.event_name "Unknown Ring")
      (parse_time (cd.class_related_data.getD {}).estimated_time)).1.filter
        Change.isTimeChange =
      (time_change_part first first.farm_id (py_or first.class_name "Unknown Class")
      (py_or first.event_name "Unknown Ring")
      (parse_time (cd.class_related_data.getD {}).estimated_time)).1 from ?_]
  · rw [time_change_part_changes]
  · rw [time_change_part_changes]
    split <;> [skip; simp] <;> split <;> simp [Change.isTimeChange]

lemma process_entry_row_cases (ctx : ClassCtx) (trips : List Trip) (e : LoadedEntry) :
    (process_entry ctx trips e).row = e.row ∨
      (process_entry ctx trips e).row.estimated_start = ctx.api_estimated := by
  unfold process_entry
  cases h : trip_for_entry trips e.row.api_entry_id
  · left; rfl
  · right; rfl

/-! Claim theorems about Flow 2. -/

/-- C5: Flow 2 strips the date prefix before comparing estimated start times.
A persisted "2026-02-19 07:15:00" against a freshly fetched "07:15:00" emits
no TIME_CHANGE event; a persisted "07:15:00" against a fetched "07:45:00"
emits exactly one TIME_CHANGE event with old "07:15:00" and new "07:45:00". -/
theorem time_change_strips_date_prefix
    (e1 : LoadedEntry) (rest1 : List LoadedEntry) (cd1 : ClassData)
    (e2 : LoadedEntry) (rest2 : List LoadedEntry) (cd2 : ClassData)
    (h1 : e1.row.estimated_start = some "2026-02-19 07:15:00")
    (h2 : (cd1.class_related_data.getD {}).estimated_time = some "07:15:00")
    (h3 : e2.row.estimated_start = some "07:15:00")
    (h4 : (cd2.class_related_data.getD {}).estimated_time = some "07:45:00") :
    (process_one_class_with_data (e1 :: rest1) (some cd1)).changes.filter
        Change.isTimeChange = [] ∧
    (process_one_class_with_data (e2 :: rest2) (some cd2)).changes.filter
        Change.isTimeChange =
      [Change.timeChange "07:15:00" "07:45:00" (py_or e2.class_name "Unknown Class")] := by
  constructor
  · rw [process_one_class_filter_timeChange, h1, h2]
    have hp : parse_time (some "07:15:00") = some "07:15:00" := by decide
    rw [hp]
    have hc : normalize_time_for_comparison (some "2026-02-19 07:15:00") =
        normalize_time_for_comparison (some "07:15:00") := by decide
    simp [hc]
  · rw [process_one_class_filter_timeChange, h3, h4]
    have hp : parse_time (some "07:45:00") = some "07:45:00" := by decide
    rw [hp]
    have hc : normalize_time_for_comparison (some "07:15:00") ≠
        normalize_time_for_comparison (some "07:45:00") := by decide
    have ho : py_or (some "07:15:00") "—" = "07:15:00" := by decide
    simp [hc, ho]

def c5_entry_datetime : LoadedEntry :=
  { row := { estimated_start := some "2026-02-19 07:15:00" } }

def c5_class_data_same : ClassData :=
  { class_related_data := some { estimated_time := some "07:15:00" } }

def c5_entry_bare : LoadedEntry :=
  { row := { estimated_start := some "07:15:00" } }

def c5_class_data_later : ClassData :=
  { class_related_data := some { estimated_time := some "07:45:00" } }

/-- Witness for C5 at concrete inputs. -/
theorem time_change_strips_date_prefix_witness :
    (process_one_class_with_data [c5_entry_datetime] (some c5_class_data_same)).changes.filter
        Change.isTimeChange = [] ∧
    (process_one_class_with_data [c5_entry_bare] (some c5_class_data_later)).changes.filter
        Change.isTimeChange = [Change.timeChange "07:15:00" "07:45:00" "Unknown Class"] :=
  time_change_strips_date_prefix c5_entry_datetime [] c5_class_data_same
    c5_entry_bare [] c5_class_data_later rfl rfl rfl rfl

/-- C10 (implicit): when the freshly fetched estimated start is null (absent
or empty in the live payload), Flow 2 never emits a TIME_CHANGE event for the
class, whatever estimated start is persisted; the persisted value is only
overwritten (every updated row carries estimated_start = none), never diffed
against null. -/
theorem null_fetched_time_never_diffed (entries : List LoadedEntry) (cd : ClassData)
    (h : parse_time (cd.class_related_data.getD {}).estimated_time = none) :
    (process_one_class_with_data entries (some cd)).changes.filter
        Change.isTimeChange = [] ∧
    ∀ r ∈ (process_one_class_with_data entries (some cd)).rows,
      r.estimated_start = none ∨ r ∈ entries.map (·.row) := by
  cases entries with
  | nil => exact ⟨rfl, by intro r hr; simp [process_one_class_with_data] at hr⟩
  | cons first rest =>
    constructor
    · rw [process_one_class_filter_timeChange, h]
    · intro r hr
      simp only [process_one_class_with_data, List.mem_map] at hr
      obtain ⟨s, ⟨e, he, rfl⟩, rfl⟩ := hr
      rcases process_entry_row_cases _ _ e with hrow | hrow
      · right
        rw [hrow]
        exact List.mem_map.mpr ⟨e, he, rfl⟩
      · left
        rw [hrow, h]

def c10_entry : LoadedEntry :=
  { row := { api_entry_id := some 4, estimated_start := some "2026-02-19 07:15:00" } }

def c10_class_data : ClassData :=
  { class_related_data := some { estimated_time := some "  " },
    trips := [{ entry_id := some 4 }] }

/-- Witness for C10 at concrete inputs (a whitespace-only fetched time parses
to null; the persisted datetime is overwritten, not diffed). -/
theorem null_fetched_time_never_diffed_witness :
    parse_time (c10_class_data.class_related_data.getD {}).estimated_time = none ∧
    ((process_one_class_with_data [c10_entry] (some c10_class_data)).changes.filter
        Change.isTimeChange = [] ∧
      ∀ r ∈ (process_one_class_with_data [c10_entry] (some c10_class_data)).rows,
        r.estimated_start = none ∨ r ∈ [c10_entry].map (·.row)) :=
  ⟨rfl, null_fetched_time_never_diffed [c10_entry] c10_class_data rfl⟩

/-- C7: RESULT sentinel handling. A fetched placing equal to the unplaced
sentinel (100000) or to 0 never produces a RESULT event, even when it differs
from the persisted placing; and a RESULT event is produced only when the
fetched placing is strictly between 0 and 100000 and differs from the
persisted placing. -/
theorem result_sentinel_guard (ctx : ClassCtx) (trips : List Trip) (e : LoadedEntry) :
    (∀ t, trip_for_entry trips e.row.api_entry_id = some t →
      (t.placing = some 0 ∨ t.placing = some UNPLACED_PLACING) →
      (process_entry ctx trips e).changes.filter Change.isResult = []) ∧
    (∀ h p pm cn, Change.result h p pm cn ∈ (process_entry ctx trips e).changes →
      0 < p ∧ p < UNPLACED_PLACING ∧ e.row.placing ≠ some p ∧
      ∃ t, trip_for_entry trips e.row.api_entry_id = some t ∧ t.placing = some p) := by
  rw [process_entry_changes]
  cases hf : trip_for_entry trips e.row.api_entry_id with
  | none =>
    constructor
    · intro t ht _; simp
    · intro h p pm cn hmem; simp at hmem
  | some trip =>
    constructor
    · intro t ht hp
      have htt : t = trip := (Option.some.inj ht).symm
      subst htt
      have hA : (result_part ctx e t).1.filter Change.isResult = [] := by
        rw [result_part_changes]
        rcases hp with hp | hp <;> rw [hp]
        · simp
        · simp [UNPLACED_PLACING]
      have hB : (horse_completed_part ctx e t).1.filter Change.isResult = [] := by
        rw [horse_completed_part_changes]; split <;> rfl
      have hC : (scratched_part ctx e t).1.filter Change.isResult = [] := by
        rw [scratched_part_changes]; split <;> rfl
      rw [List.filter_append, List.filter_append, hA, hB, hC]
      rfl
    · intro h p pm cn hmem
      simp only [List.mem_append] at hmem
      rcases hmem with (hmem | hmem) | hmem
      · rw [result_part_changes] at hmem
        rcases hps : trip.placing with _ | p'
        · rw [hps] at hmem; simp at hmem
        · rw [hps] at hmem
          simp only [List.mem_ite_nil_right, List.mem_singleton, Change.result.injEq] at hmem
          obtain ⟨hcond, hh, hp2, hpm, hcn⟩ := hmem
          subst hp2
          exact ⟨hcond.2.1, hcond.2.2, hcond.1, trip, rfl, hps⟩
      · rw [horse_completed_part_changes] at hmem
        split at hmem <;> simp at hmem
      · rw [scratched_part_changes] at hmem
        split at hmem <;> simp at hmem

def c7_entry : LoadedEntry :=
  { row := { api_entry_id := some 21, placing := some 2 } }

def c7_trips : List Trip := [{ entry_id := some 21, placing := some 100000 }]

/-- Witness for C7: a fetched sentinel placing (100000) differing from the
persisted placing (2) yields no RESULT change. -/
theorem result_sentinel_guard_witness :
    (process_entry ⟨some 1, "C", "R", none, none, none, none, none, none⟩
        c7_trips c7_entry).changes.filter Change.isResult = [] :=
  (result_sentinel_guard ⟨some 1, "C", "R", none, none, none, none, none, none⟩
      c7_trips c7_entry).1
    { entry_id := some 21, placing := some 100000 } (by decide) (Or.inr (by decide))

/-- C8: completion is monotonic. Once an entry row is persisted with
gone_in = true, processing it again (whatever the fetched trip reports,
including gone-in observed true again) emits no HORSE_COMPLETED change and
records no Flow 3 trigger call for that entry. -/
theorem gone_in_monotonic (ctx : ClassCtx) (trips : List Trip) (e : LoadedEntry)
    (h : e.row.gone_in = true) :
    (process_entry ctx trips e).changes.filter Change.isHorseCompleted = [] ∧
    (process_entry ctx trips e).flow3 = [] := by
  rw [process_entry_changes, process_entry_flow3]
  cases hf : trip_for_entry trips e.row.api_entry_id with
  | none => exact ⟨rfl, rfl⟩
  | some trip =>
    constructor
    · have hA : (result_part ctx e trip).1.filter Change.isHorseCompleted = [] := by
        rw [result_part_changes]
        cases trip.placing
        · rfl
        · split
          all_goals first
          | rfl
          | (split <;> rfl)
      have hB : (horse_completed_part ctx e trip).1.filter Change.isHorseCompleted = [] := by
        rw [horse_completed_part_changes, h]
        simp
      have hC : (scratched_part ctx e trip).1.filter Change.isHorseCompleted = [] := by
        rw [scratched_part_changes]; split <;> rfl
      rw [List.filter_append, List.filter_append, hA, hB, hC]
      rfl
    · show (horse_completed_part ctx e trip).2.2.2 = []
      rw [horse_completed_part_flow3, h]
      simp

def c8_entry : LoadedEntry :=
  { row := { api_entry_id := some 33, gone_in := true } }

def c8_trips : List Trip := [{ entry_id := some 33, gone_in := some 1 }]

/-- Witness for C8: an entry already gone_in, observed gone-in again, yields
no HORSE_COMPLETED change and no Flow 3 trigger call. -/
theorem gone_in_monotonic_witness :
    (process_entry ⟨some 1, "C", "R", none, none, none, none, none, none⟩
        c8_trips c8_entry).changes.filter Change.isHorseCompleted = [] ∧
    (process_entry ⟨some 1, "C", "R", none, none, none, none, none, none⟩
        c8_trips c8_entry).flow3 = [] :=
  gone_in_monotonic ⟨some 1, "C", "R", none, none, none, none, none, none⟩
    c8_trips c8_entry (by decide)

lemma process_entry_changes_some (ctx : ClassCtx) (trips : List Trip)
    (e : LoadedEntry) (t : Trip)
    (hfind : trip_for_entry trips e.row.api_entry_id = some t) :
    (process_entry ctx trips e).changes =
      (result_part ctx e t).1 ++ (horse_completed_part ctx e t).1
        ++ (scratched_part ctx e t).1 := by
  rw [process_entry_changes, hfind]

lemma process_entry_flow3_some (ctx : ClassCtx) (trips : List Trip)
    (e : LoadedEntry) (t : Trip)
    (hfind : trip_for_entry trips e.row.api_entry_id = some t) :
    (process_entry ctx trips e).flow3 = (horse_completed_part ctx e t).2.2.2 := by
  rw [process_entry_flow3, hfind]

lemma result_part_filter_horseCompleted (ctx : ClassCtx) (e : LoadedEntry) (t : Trip) :
    (result_part ctx e t).1.filter Change.isHorseCompleted = [] := by
  rw [result_part_changes]
  cases t.placing
  · rfl
  · split
    all_goals first
    | rfl
    | (split <;> rfl)

lemma scratched_part_filter_horseCompleted (ctx : ClassCtx) (e : LoadedEntry) (t : Trip) :
    (scratched_part ctx e t).1.filter Change.isHorseCompleted = [] := by
  rw [scratched_part_changes]; split <;> rfl

lemma process_entry_logs_source (ctx : ClassCtx) (trips : List Trip) (e : LoadedEntry) :
    ∀ n ∈ (process_entry ctx trips e).logs, n.source = "class_monitoring" := by
  intro n hn
  unfold process_entry at hn
  cases hfind : trip_for_entry trips e.row.api_entry_id with
  | none => rw [hfind] at hn; simp at hn
  | some t =>
    rw [hfind] at hn
    simp only [List.mem_append] at hn
    rcases hn with (hn | hn) | hn
    · unfold result_part at hn
      repeat' split at hn
      all_goals simp_all
    · unfold horse_completed_part at hn
      repeat' split at hn
      all_goals simp_all
    · unfold scratched_part at hn
      repeat' split at hn
      all_goals simp_all

/-- C1 amended: when a trip's gone-in flag flips false→true for an entry, the
engine emits a HORSE_COMPLETED event and calls the Flow 3 trigger placeholder
`trigger_flow_3_if_needed` with that horse/class/show — but the placeholder
performs no work (it produces no notification), `run_flow_3_horse_availability`
is not invoked, and every notification the engine logs has source
"class_monitoring". -/
theorem completion_triggers_placeholder_only (ctx : ClassCtx) (trips : List Trip)
    (e : LoadedEntry) (t : Trip)
    (hfind : trip_for_entry trips e.row.api_entry_id = some t)
    (hgone : t.gone_in = some 1) (hnot : e.row.gone_in = false) :
    (process_entry ctx trips e).changes.filter Change.isHorseCompleted =
      [Change.horseCompleted (py_or e.horse_name "Unknown")
        (toString e.row.horse_id) ctx.class_name] ∧
    (process_entry ctx trips e).flow3 =
      [⟨toString e.row.horse_id, py_or e.horse_name "Unknown",
        (match e.row.class_id with | some c => toString c | none => ""),
        (match e.row.show_id with | some s => toString s | none => "")⟩] ∧
    trigger_flow_3_if_needed (toString e.row.horse_id) (py_or e.horse_name "Unknown")
      (match e.row.class_id with | some c => toString c | none => "")
      (match e.row.show_id with | some s => toString s | none => "") = [] ∧
    ∀ n ∈ (process_entry ctx trips e).logs, n.source = "class_monitoring" := by
  refine ⟨?_, ?_, rfl, process_entry_logs_source ctx trips e⟩
  · rw [process_entry_changes_some ctx trips e t hfind, List.filter_append,
      List.filter_append, result_part_filter_horseCompleted,
      scratched_part_filter_horseCompleted, horse_completed_part_changes,
      hgone, hnot]
    simp [Change.isHorseCompleted]
  · rw [process_entry_flow3_some ctx trips e t hfind, horse_completed_part_flow3,
      hgone, hnot]
    simp

def c1_entry : LoadedEntry :=
  { row := { id := 7, horse_id := 3, show_id := some 5, class_id := some 9,
             api_entry_id := some 41, api_class_id := some 11, gone_in := false },
    horse_name := some "Atlas", class_name := some "Grand Prix",
    event_name := some "International Ring", farm_id := some 1 }

def c1_trip : Trip := { entry_id := some 41, gone_in := some 1 }

def c1_class_data : ClassData :=
  { class_related_data := some { status := some "Underway" }, trips := [c1_trip] }

def c1_task : MonitorTask := { show_id := 5, api_show_id := 100, entries := [c1_entry] }

def c1_fetch : Int → Int → Option ClassData := fun _ _ => some c1_class_data

/-- Witness for the amended C1 at concrete inputs. -/
theorem completion_triggers_placeholder_only_witness :
    (process_entry ⟨some 1, "Grand Prix", "International Ring", some "Underway",
        none, none, none, none, none⟩ [c1_trip] c1_entry).changes.filter
      Change.isHorseCompleted =
      [Change.horseCompleted "Atlas" "3" "Grand Prix"] ∧
    (process_entry ⟨some 1, "Grand Prix", "International Ring", some "Underway",
        none, none, none, none, none⟩ [c1_trip] c1_entry).flow3 = [⟨"3", "Atlas", "9", "5"⟩] ∧
    trigger_flow_3_if_needed "3" "Atlas" "9" "5" = [] ∧
    ∀ n ∈ (process_entry ⟨some 1, "Grand Prix", "International Ring", some "Underway",
        none, none, none, none, none⟩ [c1_trip] c1_entry).logs,
      n.source = "class_monitoring" :=
  completion_triggers_placeholder_only
    ⟨some 1, "Grand Prix", "International Ring", some "Underway",
      none, none, none, none, none⟩ [c1_trip] c1_entry c1_trip
    (by decide) (by decide) (by decide)

/-- C1 counterexample: a Flow 2 run in which an entry's gone-in flag flips
false→true emits the HORSE_COMPLETED event, but no availability notification
is produced in that run: no logged notification has source
"horse_availability" (all come from class monitoring), because
`trigger_flow_3_if_needed` is a placeholder that never invokes
`run_flow_3_horse_availability`. -/
theorem flow3_not_invoked_on_completion :
    ((run_class_monitoring c1_fetch [c1_task]).changes.filter
      Change.isHorseCompleted).length = 1 ∧
    (run_class_monitoring c1_fetch [c1_task]).logs.filter
      (fun n => n.source == "horse_availability") = [] ∧
    ∀ n ∈ (run_class_monitoring c1_fetch [c1_task]).logs,
      n.source = "class_monitoring" := by
  refine ⟨by decide, by decide, by decide⟩

/-! Composition lemmas for `run_class_monitoring`. -/

lemma process_one_class_none (es : List LoadedEntry) :
    process_one_class_with_data es none =
      { updated := 0, changes := [], alerts := [], logs := [], flow3 := [],
        rows := es.map (·.row) } := by
  cases es <;> rfl

lemma run_class_monitoring_cons (fetch : Int → Int → Option ClassData)
    (t : MonitorTask) (ts : List MonitorTask) :
    (run_class_monitoring fetch (t :: ts)).changes =
      (process_one_class_with_data t.entries (task_fetch fetch t)).changes
        ++ (run_class_monitoring fetch ts).changes ∧
    (run_class_monitoring fetch (t :: ts)).alerts =
      (process_one_class_with_data t.entries (task_fetch fetch t)).alerts
        ++ (run_class_monitoring fetch ts).alerts ∧
    (run_class_monitoring fetch (t :: ts)).logs =
      (process_one_class_with_data t.entries (task_fetch fetch t)).logs
        ++ (run_class_monitoring fetch ts).logs ∧
    (run_class_monitoring fetch (t :: ts)).flow3 =
      (process_one_class_with_data t.entries (task_fetch fetch t)).flow3
        ++ (run_class_monitoring fetch ts).flow3 ∧
    (run_class_monitoring fetch (t :: ts)).entries_updated =
      (process_one_class_with_data t.entries (task_fetch fetch t)).updated
        + (run_class_monitoring fetch ts).entries_updated :=
  ⟨rfl, rfl, rfl, rfl, rfl⟩

/-- C9: a fetch failure for one class is isolated to that class. The failed
class contributes zero entry updates, zero changes, zero alerts and zero
logged notifications (its entry rows pass through unchanged), every other
fetched class is still processed normally — the run's changes, alerts, logs,
Flow 3 trigger records and update count coincide with those of the run
restricted to the classes whose fetch succeeded — and the run completes,
still counting every grouped class as checked. -/
theorem class_fetch_failure_isolated (fetch : Int → Int → Option ClassData)
    (tasks : List MonitorTask) :
    (∀ t ∈ tasks, task_fetch fetch t = none →
      process_one_class_with_data t.entries (task_fetch fetch t) =
        { updated := 0, changes := [], alerts := [], logs := [], flow3 := [],
          rows := t.entries.map (·.row) }) ∧
    ((run_class_monitoring fetch tasks).changes =
        (run_class_monitoring fetch
          (tasks.filter (fun t => (task_fetch fetch t).isSome))).changes ∧
      (run_class_monitoring fetch tasks).alerts =
        (run_class_monitoring fetch
          (tasks.filter (fun t => (task_fetch fetch t).isSome))).alerts ∧
      (run_class_monitoring fetch tasks).logs =
        (run_class_monitoring fetch
          (tasks.filter (fun t => (task_fetch fetch t).isSome))).logs ∧
      (run_class_monitoring fetch tasks).flow3 =
        (run_class_monitoring fetch
          (tasks.filter (fun t => (task_fetch fetch t).isSome))).flow3 ∧
      (run_class_monitoring fetch tasks).entries_updated =
        (run_class_monitoring fetch
          (tasks.filter (fun t => (task_fetch fetch t).isSome))).entries_updated) ∧
    (run_class_monitoring fetch tasks).classes_checked = tasks.length := by
  refine ⟨?_, ?_, rfl⟩
  · intro t _ hnone
    rw [hnone]
    exact process_one_class_none t.entries
  · induction tasks with
    | nil => exact ⟨rfl, rfl, rfl, rfl, rfl⟩
    | cons t ts ih =>
      obtain ⟨ihc, iha, ihl, ihf, ihu⟩ := ih
      cases hn : task_fetch fetch t with
      | none =>
        have hfil : (t :: ts).filter (fun t => (task_fetch fetch t).isSome) =
            ts.filter (fun t => (task_fetch fetch t).isSome) := by
          rw [List.filter_cons_of_neg]
          simp [hn]
        obtain ⟨hc, ha, hl, hf, hu⟩ := run_class_monitoring_cons fetch t ts
        rw [hfil, hc, ha, hl, hf, hu, hn, process_one_class_none]
        exact ⟨by simp [ihc], by simp [iha], by simp [ihl], by simp [ihf], by simp [ihu]⟩
      | some cd =>
        have hfil : (t :: ts).filter (fun t => (task_fetch fetch t).isSome) =
            t :: ts.filter (fun t => (task_fetch fetch t).isSome) := by
          rw [List.filter_cons_of_pos]
          simp [hn]
        obtain ⟨hc, ha, hl, hf, hu⟩ := run_class_monitoring_cons fetch t ts
        have hfc := run_class_monitoring_cons fetch t
          (ts.filter (fun t => (task_fetch fetch t).isSome))
        obtain ⟨fc, fa, fl, ff, fu⟩ := hfc
        rw [hfil, hc, ha, hl, hf, hu, fc, fa, fl, ff, fu, ihc, iha, ihl, ihf, ihu]
        exact ⟨rfl, rfl, rfl, rfl, rfl⟩

def c9_ok_entry : LoadedEntry :=
  { row := { id := 1, horse_id := 2, show_id := some 5, api_entry_id := some 61,
             api_class_id := some 12, completed_trips := some 1 },
    farm_id := some 1 }

def c9_bad_entry : LoadedEntry :=
  { row := { id := 2, horse_id := 4, show_id := some 5, api_entry_id := some 62,
             api_class_id := some 13 },
    farm_id := some 1 }

def c9_ok_task : MonitorTask := { show_id := 5, api_show_id := 100, entries := [c9_ok_entry] }

def c9_bad_task : MonitorTask := { show_id := 5, api_show_id := 100, entries := [c9_bad_entry] }

/-- Fetch that succeeds for class 12 and fails (adapter error) for class 13. -/
def c9_fetch : Int → Int → Option ClassData := fun cid _ =>
  if cid = 12 then
    some { class_related_data := some { completed_trips := some 2 },
           trips := [{ entry_id := some 61 }] }
  else none

/-- Witness for C9 at a concrete run with one successful and one failed class
fetch. -/
theorem class_fetch_failure_isolated_witness :
    process_one_class_with_data c9_bad_task.entries (task_fetch c9_fetch c9_bad_task) =
      { updated := 0, changes := [], alerts := [], logs := [], flow3 := [],
        rows := c9_bad_task.entries.map (·.row) } ∧
    (run_class_monitoring c9_fetch [c9_ok_task, c9_bad_task]).changes =
      (run_class_monitoring c9_fetch
        ([c9_ok_task, c9_bad_task].filter
          (fun t => (task_fetch c9_fetch t).isSome))).changes ∧
    (run_class_monitoring c9_fetch [c9_ok_task, c9_bad_task]).classes_checked = 2 :=
  ⟨(class_fetch_failure_isolated c9_fetch [c9_ok_task, c9_bad_task]).1 c9_bad_task
      (by decide) (by decide),
    (class_fetch_failure_isolated c9_fetch [c9_ok_task, c9_bad_task]).2.1.1,
    (class_fetch_failure_isolated c9_fetch [c9_ok_task, c9_bad_task]).2.2⟩

/-!
Flow 1 (Morning Sync) embedding: app/services/schedule.py plus the model
operations it calls (app/models/*.py). The database is a record of row lists
with a `next_id` counter standing in for UUID generation.
-/

/-- One row of the `farms` table. -/
structure FarmRow where
  id : Nat
  name : String
  customer_id : Option Int
deriving DecidableEq

/-- One row of the `horses` table. -/
structure HorseRow where
  id : Nat
  farm_id : Nat
  name : String
deriving DecidableEq

/-- One row of the `riders` table. -/
structure RiderRow where
  id : Nat
  farm_id : Nat
  name : String
deriving DecidableEq

/-- One row of the `events` table (rings). -/
structure EventRow where
  id : Nat
  farm_id : Nat
  name : String
  ring_number : Option Int
deriving DecidableEq

/-- One row of the `classes` table. -/
structure ClassRow where
  id : Nat
  farm_id : Nat
  name : String
  class_number : Option String
  sponsor : Option String
  prize_money : Option String
  class_type : Option String
deriving DecidableEq

/-- One row of the `shows` table. -/
structure ShowRow where
  id : Nat
  farm_id : Nat
  api_show_id : Option Int
  name : String
  start_date : Option String
  end_date : Option String
deriving DecidableEq

/-- The relational state of the identity store. -/
structure DB where
  next_id : Nat := 1
  farms : List FarmRow := []
  horses : List HorseRow := []
  riders : List RiderRow := []
  events : List EventRow := []
  classes : List ClassRow := []
  shows : List ShowRow := []
  entries : List EntryRow := []
deriving DecidableEq

/-- Order-preserving deduplication keeping first occurrences (Python
`dict.fromkeys`, and the model of Python set iteration order). -/
def unique_preserving_aux {α : Type} [DecidableEq α] (seen : List α) :
    List α → List α
  | [] => []
  | x :: xs =>
    if x ∈ seen then unique_preserving_aux seen xs
    else x :: unique_preserving_aux (seen ++ [x]) xs

def unique_preserving {α : Type} [DecidableEq α] (l : List α) : List α :=
  unique_preserving_aux [] l

/-- Digit-list parser for `py_int` (accumulator `none` until a digit seen). -/
def parse_nat_digits : List Char → Option Nat → Option Nat
  | [], acc => acc
  | c :: rest, acc =>
    if c.isDigit then
      parse_nat_digits rest (some ((acc.getD 0) * 10 + (c.toNat - 48)))
    else none

/-- Python `int(s)` on a string: optional sign, at least one digit, else a
ValueError (modelled as `none`). -/
def py_int (s : String) : Option Int :=
  let t := py_strip s
  match t.toList with
  | '-' :: rest => (parse_nat_digits rest none).map (fun n => -(n : Int))
  | '+' :: rest => (parse_nat_digits rest none).map (fun n => (n : Int))
  | l => (parse_nat_digits l none).map (fun n => (n : Int))

/-- Model of `_parse_customer_id`: strip, empty to `None`, else `int(...)` or `None`. -/
def parse_customer_id (v : Option String) : Option Int :=
  v.bind fun s =>
    let t := py_strip s
    if t = "" then none else py_int t

/-- YYYY-MM-DD shape check used by `parse_date` (digits and dashes; full
calendar validation by `strptime` is not modelled — no claim depends on
rejecting e.g. month 13). -/
def valid_date10 : List Char → Bool
  | [a, b, c, d, e, f, g, h, i, j] =>
    a.isDigit && b.isDigit && c.isDigit && d.isDigit && (e == '-') &&
    f.isDigit && g.isDigit && (h == '-') && i.isDigit && j.isDigit
  | _ => false

/-- Model of `_parse_date`: ISO date or datetime string to its date, `None` when empty
or malformed. Both Python branches (`fromisoformat` for strings containing
"T", `strptime(s[:10])` otherwise) yield the leading `YYYY-MM-DD`. -/
def parse_date (s : Option String) : Option String :=
  match s with
  | none => none
  | some s =>
    if s = "" then none
    else
      let ten := s.toList.take 10
      if valid_date10 ten then some (String.mk ten) else none

/-- Model of `_normalize_class_number`: strip, empty to `None`. -/
def normalize_class_number (v : Option String) : Option String :=
  match v with
  | none => none
  | some s =>
    let t := py_strip s
    if t = "" then none else some t

/-- Python `(x or "").strip() or None`. -/
def strip_to_none (s : Option String) : Option String :=
  let t := py_strip (s.getD "")
  if t = "" then none else some t

/-- Python `(x or "").strip() or default`. -/
def strip_or_default (s : Option String) (d : String) : String :=
  let t := py_strip (s.getD "")
  if t = "" then d else t

/-- Split a character list on a separator character, keeping empty groups
(Python `str.split(sep)`). -/
def split_char (sep : Char) : List Char → List (List Char)
  | [] => [[]]
  | c :: rest =>
    let r := split_char sep rest
    if c = sep then [] :: r
    else
      match r with
      | [] => [[c]]
      | g :: gs => (c :: g) :: gs

/-- Zero-padded two-digit rendering (strftime `%H` etc.). -/
def pad2 (n : Nat) : String :=
  if n < 10 then "0" ++ toString n else toString n

/-- Model of `_estimated_start_utc`: combine an ISO scheduled date with a
`HH:MM:SS[.frac]` start time into a `YYYY-MM-DD HH:MM:SS` string. Fewer than
three `:` components or unparsable integers yield `None`; components outside
the `datetime` ranges are also mapped to `None` (in the source that raises
out of the build step, which no claim reaches because the run aborts
earlier). -/
def estimated_start_utc (scheduled_date_str schedule_starttime : Option String) :
    Option String :=
  match scheduled_date_str, schedule_starttime with
  | some ds, some ts =>
    if ds = "" ∨ ts = "" then none
    else
      match parse_date (some ds) with
      | none => none
      | some d10 =>
        let time_part := py_strip (String.mk ((split_char '.' (py_strip ts).toList).headD []))
        match (split_char ':' time_part.toList).map String.mk with
        | hs :: ms :: ss :: _ =>
          match py_int hs, py_int ms, py_int ss with
          | some h, some m, some s =>
            if 0 ≤ h ∧ h < 24 ∧ 0 ≤ m ∧ m < 60 ∧ 0 ≤ s ∧ s < 60 then
              some (d10 ++ " " ++ pad2 h.toNat ++ ":" ++ pad2 m.toNat ++ ":" ++ pad2 s.toNat)
            else none
          | _, _, _ => none
        | _ => none
  | _, _ => none

/-- Model of `resolve_sync_date`: explicit override (stripped, first ten characters,
validated) else today. -/
def resolve_sync_date (today : String) (date_override : Option String) : String :=
  match date_override with
  | some d =>
    if d = "" then today
    else
      let s := String.mk ((py_strip d).toList.take 10)
      if valid_date10 s.toList then s else today
  | none => today

/-! Identity-store operations (app/models). -/

/-- Model of `get_farm_by_name_and_customer`. -/
def get_farm_by_name_and_customer (db : DB) (name : String) (customer_id : Option Int) :
    Option FarmRow :=
  db.farms.find? (fun f => f.name == name && f.customer_id == customer_id)

/-- Model of `create_farm`. -/
def create_farm (db : DB) (name : String) (customer_id : Option Int) : FarmRow × DB :=
  let f : FarmRow := ⟨db.next_id, name, customer_id⟩
  (f, { db with next_id := db.next_id + 1, farms := db.farms ++ [f] })

/-- Model of `get_or_create_farm`. -/
def get_or_create_farm (db : DB) (farm_name : String) (customer_id : Option Int) :
    Nat × DB :=
  match get_farm_by_name_and_customer db farm_name customer_id with
  | some f => (f.id, db)
  | none =>
    let (f, db) := create_farm db farm_name customer_id
    (f.id, db)

/-- Model of `bulk_upsert_horses`: dedupe while keeping order, then insert each name ON
CONFLICT (farm_id, name) DO NOTHING; returns (inserted, 0). -/
def bulk_upsert_horses (db : DB) (farm_id : Nat) (names : List String) :
    DB × Nat × Nat :=
  if names.isEmpty then (db, 0, 0)
  else
    let names := unique_preserving names
    let step := fun (acc : DB × Nat) (name : String) =>
      let (db, ins) := acc
      if db.horses.any (fun h => h.farm_id == farm_id && h.name == name) then (db, ins)
      else
        ({ db with
            next_id := db.next_id + 1
            horses := db.horses ++ [⟨db.next_id, farm_id, name⟩] }, ins + 1)
    let (db, ins) := names.foldl step (db, 0)
    (db, ins, 0)

/-- Model of `get_horse_ids_by_names`. -/
def get_horse_ids_by_names (db : DB) (farm_id : Nat) (names : List String) :
    List (Nat × String) :=
  if names.isEmpty then []
  else
    (db.horses.filter (fun h => h.farm_id == farm_id && names.contains h.name)).map
      (fun h => (h.id, h.name))

/-- Model of `bulk_upsert_riders` (rider.py): the same DO NOTHING insert, but the
function is declared `-> None` and returns no counts. -/
def bulk_upsert_riders (db : DB) (farm_id : Nat) (names : List String) : DB :=
  if names.isEmpty then db
  else
    let names := unique_preserving names
    names.foldl
      (fun db name =>
        if db.riders.any (fun r => r.farm_id == farm_id && r.name == name) then db
        else
          { db with
            next_id := db.next_id + 1
            riders := db.riders ++ [⟨db.next_id, farm_id, name⟩] })
      db

/-- Model of `bulk_upsert_events`: ON CONFLICT (farm_id, name) DO NOTHING. -/
def bulk_upsert_events (db : DB) (farm_id : Nat) (rows : List (String × Option Int)) :
    DB × Nat × Nat :=
  if rows.isEmpty then (db, 0, 0)
  else
    let step := fun (acc : DB × Nat) (row : String × Option Int) =>
      let (db, ins) := acc
      if db.events.any (fun ev => ev.farm_id == farm_id && ev.name == row.1) then (db, ins)
      else
        ({ db with
            next_id := db.next_id + 1
            events := db.events ++ [⟨db.next_id, farm_id, row.1, row.2⟩] }, ins + 1)
    let (db, ins) := rows.foldl step (db, 0)
    (db, ins, 0)

/-- Model of `get_events_by_farm_for_rings`. -/
def get_events_by_farm_for_rings (db : DB) (farm_id : Nat) :
    List (Nat × String × Option Int) :=
  (db.events.filter (fun ev => ev.farm_id == farm_id)).map
    (fun ev => (ev.id, ev.name, ev.ring_number))

/-- The ring_number → event id dict built in
`upsert_events_and_build_ring_map` (a later duplicate ring number wins). -/
def build_ring_map (evs : List (Nat × String × Option Int)) : Int → Option Nat :=
  fun rnum =>
    (evs.filterMap (fun ev => if ev.2.2 == some rnum then some ev.1 else none)).getLast?

/-- Model of `bulk_upsert_classes` (show_class.py): ON CONFLICT
(farm_id, name, class_number) DO UPDATE sponsor / prize_money / class_type.
Declared `-> None`: it returns no counts. Its only reachable call site
(`get_or_create_class_map_from_entry_details`) passes deduplicated keys, so
the Postgres duplicate-arbiter error cannot fire there and is not modelled. -/
def bulk_upsert_classes (db : DB) (farm_id : Nat)
    (rows : List (String × Option String × Option String × Option String × Option String)) :
    DB :=
  rows.foldl
    (fun db r =>
      let (name, cnum, sponsor, prize, ctype) := r
      if db.classes.any (fun c =>
          c.farm_id == farm_id && c.name == name && c.class_number == cnum) then
        { db with classes := db.classes.map (fun c =>
            if c.farm_id == farm_id && c.name == name && c.class_number == cnum then
              { c with sponsor := sponsor, prize_money := prize, class_type := ctype }
            else c) }
      else
        { db with
          next_id := db.next_id + 1
          classes := db.classes ++ [⟨db.next_id, farm_id, name, cnum, sponsor, prize, ctype⟩] })
    db

/-- Model of `get_classes_by_farm_keys`. -/
def get_classes_by_farm_keys (db : DB) (farm_id : Nat)
    (keys : List (String × Option String)) : List (Nat × String × Option String) :=
  if keys.isEmpty then []
  else
    (db.classes.filter (fun c =>
      c.farm_id == farm_id && keys.contains (c.name, c.class_number))).map
      (fun c => (c.id, c.name, c.class_number))

/-- Model of `upsert_show`: select by (farm_id, api_show_id); update stub returns the
existing id with counts (0, 1), otherwise insert with counts (1, 0). -/
def upsert_show (db : DB) (farm_id : Nat) (api_show_id : Int) (name : String)
    (start_date end_date : Option String) : Nat × Nat × Nat × DB :=
  match db.shows.find? (fun s => s.farm_id == farm_id && s.api_show_id == some api_show_id) with
  | some s => (s.id, 0, 1, db)
  | none =>
    let row : ShowRow := ⟨db.next_id, farm_id, some api_show_id, name, start_date, end_date⟩
    (db.next_id, 1, 0, { db with next_id := db.next_id + 1, shows := db.shows ++ [row] })

/-! Entry upsert and pruning (app/models/entry.py). -/

/-- A resolved entry row ready for `bulk_upsert_entries` (the dict built by
Flow 1 after horse / rider ids are substituted). -/
structure ResolvedEntry where
  horse_id : Nat
  rider_id : Option Nat := none
  show_id : Option Nat := none
  event_id : Option Nat := none
  class_id : Option Nat := none
  api_entry_id : Option Int := none
  api_horse_id : Option Int := none
  api_rider_id : Option Int := none
  api_class_id : Option Int := none
  api_ring_id : Option Int := none
  api_trainer_id : Option Int := none
  back_number : Option String := none
  scheduled_date : Option String := none
  estimated_start : Option String := none
  status : String := "active"
  class_status : Option String := none
deriving DecidableEq

/-- Upsert key of a stored entry row: (horse_id, show_id, api_class_id). -/
def entry_key (e : EntryRow) : Nat × Option Nat × Option Int :=
  (e.horse_id, e.show_id, e.api_class_id)

/-- Upsert key of an incoming row. -/
def new_key (r : ResolvedEntry) : Nat × Option Nat × Option Int :=
  (r.horse_id, r.show_id, r.api_class_id)

/-- A freshly inserted entry row (live-state columns take their defaults). -/
def new_entry_row (id : Nat) (r : ResolvedEntry) : EntryRow :=
  { id := id, horse_id := r.horse_id, rider_id := r.rider_id, show_id := r.show_id,
    event_id := r.event_id, class_id := r.class_id, api_entry_id := r.api_entry_id,
    api_horse_id := r.api_horse_id, api_rider_id := r.api_rider_id,
    api_class_id := r.api_class_id, api_ring_id := r.api_ring_id,
    api_trainer_id := r.api_trainer_id, back_number := r.back_number,
    scheduled_date := r.scheduled_date, estimated_start := r.estimated_start,
    status := r.status, class_status := r.class_status }

/-- One row of the with-class upsert: ON CONFLICT
(horse_id, show_id, api_class_id) WHERE api_class_id IS NOT NULL DO UPDATE
rider_id, estimated_start. -/
def apply_with_class_row (st : List EntryRow × Nat) (r : ResolvedEntry) :
    List EntryRow × Nat :=
  let es := st.1
  let nid := st.2
  if es.any (fun e => entry_key e == new_key r) then
    (es.map (fun e =>
      if entry_key e == new_key r then
        { e with rider_id := r.rider_id, estimated_start := r.estimated_start }
      else e), nid)
  else (es ++ [new_entry_row nid r], nid + 1)

/-- One row of the no-class upsert: ON CONFLICT (horse_id, show_id) WHERE
api_class_id IS NULL DO UPDATE rider_id, status, scheduled_date. -/
def apply_no_class_row (st : List EntryRow × Nat) (r : ResolvedEntry) :
    List EntryRow × Nat :=
  let es := st.1
  let nid := st.2
  if es.any (fun e =>
      e.horse_id == r.horse_id && e.show_id == r.show_id && e.api_class_id == none) then
    (es.map (fun e =>
      if e.horse_id == r.horse_id && e.show_id == r.show_id && e.api_class_id == none then
        { e with
          rider_id := r.rider_id
          status := r.status
          scheduled_date := r.scheduled_date }
      else e), nid)
  else (es ++ [new_entry_row nid r], nid + 1)

/-- Model of `bulk_upsert_entries`: split the batch on `api_class_id`, count existing
rows per key before executing, then run the two ON CONFLICT statements.
Duplicate arbiter keys within one statement make Postgres raise "cannot
affect row a second time": modelled as `none`. The inserted counts use
truncated subtraction; the source computes them the same way from the
pre-statement row counts. -/
def bulk_upsert_entries (db : DB) (rows : List ResolvedEntry) :
    Option (DB × Nat × Nat) :=
  if rows.isEmpty then some (db, 0, 0)
  else
    let with_class := rows.filter (fun r => r.api_class_id.isSome)
    let no_class := rows.filter (fun r => r.api_class_id.isNone)
    if ¬ (with_class.map new_key).Nodup then none
    else if ¬ (no_class.map (fun r => (r.horse_id, r.show_id))).Nodup then none
    else
      let existing_count := (db.entries.filter (fun e =>
        with_class.any (fun r => entry_key e == new_key r))).length
      let inserted1 := with_class.length - existing_count
      let updated1 := existing_count
      let st1 := with_class.foldl apply_with_class_row (db.entries, db.next_id)
      let existing_no := (db.entries.filter (fun e =>
        e.api_class_id == none &&
          no_class.any (fun r => e.horse_id == r.horse_id && e.show_id == r.show_id))).length
      let inserted2 := no_class.length - existing_no
      let updated2 := existing_no
      let st2 := no_class.foldl apply_no_class_row st1
      some ({ db with entries := st2.1, next_id := st2.2 },
        inserted1 + inserted2, updated1 + updated2)

/-- One iteration of the `delete_stale_entries` loop over a covered
(show_id, scheduled_date) window. -/
def delete_stale_step (surviving : List (Nat × Option Nat × Option Int))
    (st : DB × Nat) (p : Nat × String) : DB × Nat :=
  let keys_for_show := surviving.filter (fun k => k.2.1 == some p.1)
  let stale_pred := fun (e : EntryRow) =>
    e.show_id == some p.1 && e.scheduled_date == some p.2 &&
      !(keys_for_show.contains (e.horse_id, e.show_id, e.api_class_id))
  let stale := st.1.entries.filter stale_pred
  ({ st.1 with entries := st.1.entries.filter (fun e => !(stale_pred e)) },
    st.2 + stale.length)

/-- Model of `delete_stale_entries`: for every (show_id, scheduled_date) window covered
by the batch, delete stored entries whose (horse_id, show_id, api_class_id)
triple is not represented in the batch. Returns the deleted count. -/
def delete_stale_entries (db : DB) (rows : List ResolvedEntry) : DB × Nat :=
  if rows.isEmpty then (db, 0)
  else
    let covered := unique_preserving (rows.filterMap (fun r =>
      match r.show_id, r.scheduled_date with
      | some s, some d => some (s, d)
      | _, _ => none))
    let surviving := rows.map (fun r => (r.horse_id, r.show_id, r.api_class_id))
    covered.foldl (delete_stale_step surviving) (db, 0)

/-! External-provider payloads consumed by Flow 1 (wellington_client.py). -/

/-- Model of `show` object of the schedule payload. -/
structure ExtShow where
  show_id : Option Int := none
  show_name : Option String := none
  start_date : Option String := none
  end_date : Option String := none
deriving DecidableEq

/-- One class summary inside a ring of the schedule payload. -/
structure ExtClassSummary where
  class_id : Option Int := none
  class_name : Option String := none
  class_number : Option String := none
  total_trips : Option Int := none
  sponsor : Option String := none
  prize_money : Option String := none
  class_type : Option String := none
deriving DecidableEq

/-- One ring of the schedule payload. -/
structure ExtRing where
  ring_name : Option String := none
  ring_number : Option Int := none
  classes : List ExtClassSummary := []
deriving DecidableEq

/-- Schedule payload (`get_schedule`). -/
structure ExtSchedule where
  «show» : Option ExtShow := none
  rings : List ExtRing := []
deriving DecidableEq

/-- One summary from `get_entries_my` (only `entry_id` is read). -/
structure ExtEntrySummary where
  entry_id : Option Int := none
deriving DecidableEq

/-- Model of `entry` object of an entry-detail payload. -/
structure ExtEntryObj where
  entry_id : Option Int := none
  horse_id : Option Int := none
  horse : Option String := none
  number : Option String := none
  trainer_id : Option Int := none
deriving DecidableEq

/-- One class inside an entry-detail payload. -/
structure ExtEntryClass where
  name : Option String := none
  class_number : Option String := none
  class_id : Option Int := none
  ring : Option Int := none
  rider_id : Option Int := none
  rider_name : Option String := none
  scheduled_date : Option String := none
  schedule_starttime : Option String := none
deriving DecidableEq

/-- One rider inside an entry-detail payload. -/
structure ExtEntryRider where
  rider_name : Option String := none
  rider_id : Option Int := none
deriving DecidableEq

/-- Entry-detail payload (`get_entry_detail`). -/
structure ExtEntryDetail where
  entry : Option ExtEntryObj := none
  classes : List ExtEntryClass := []
  entry_riders : List ExtEntryRider := []
deriving DecidableEq

/-- The external adapter as seen by one Flow 1 run; `none` models an adapter
error (authentication failure, non-2xx response, malformed payload) raising
`WellingtonAPIError`. -/
structure ExtState where
  token : Option String
  schedule : Option ExtSchedule
  entries_my : Option (List ExtEntrySummary)
  entry_detail : Int → Option ExtEntryDetail

/-- Flow 1 configuration (FARM_NAME / CUSTOMER_ID from the environment). -/
structure FlowConfig where
  farm_name : String
  customer_id : Option String
deriving DecidableEq

/-! Flow 1 steps (app/services/schedule.py). -/

/-- Output of `fetch_schedule_and_upsert_show`. -/
structure ScheduleStep where
  db : DB
  show_uuid : Nat
  show_name : String
  api_show_id : Int
  rings : List ExtRing
  show_inserted : Nat
  show_updated : Nat

/-- Model of `fetch_schedule_and_upsert_show`: GET /schedule (an adapter error
propagates), parse the show, raise when `show_id` is missing or falsy (0),
upsert the show row. -/
def fetch_schedule_and_upsert_show (db : DB) (farm_id : Nat) (ext : ExtState) :
    Option ScheduleStep :=
  match ext.schedule with
  | none => none
  | some sched =>
    let show_data := sched.«show».getD {}
    let rings := sched.rings
    let show_name := strip_or_default show_data.show_name "Unknown Show"
    let start_date := parse_date show_data.start_date
    let end_date := parse_date show_data.end_date
    match show_data.show_id with
    | none => none
    | some sid =>
      if sid = 0 then none
      else
        let (show_uuid, ins, upd, db) := upsert_show db farm_id sid show_name start_date end_date
        some ⟨db, show_uuid, show_name, sid, rings, ins, upd⟩

/-- Model of `upsert_events_and_build_ring_map`. -/
def upsert_events_and_build_ring_map (db : DB) (farm_id : Nat) (rings : List ExtRing) :
    DB × (Int → Option Nat) × Nat × Nat :=
  let event_rows := rings.map (fun r => (r.ring_name.getD "", r.ring_number))
  let (db, ins, upd) := bulk_upsert_events db farm_id event_rows
  let evs := get_events_by_farm_for_rings db farm_id
  (db, build_ring_map evs, ins, upd)

/-- One deduplicated valid class summary collected by
`upsert_classes_and_build_class_map`. -/
structure ClassKey where
  class_id : Int
  name : String
  class_number : Option String
  sponsor : Option String
  prize_money : Option String
  class_type : Option String
deriving DecidableEq

/-- The collection loop of `upsert_classes_and_build_class_map`: dedupe by
external class id, skip classes with an empty name or a nonpositive
total_trips (only valid classes enter the seen set). -/
def collect_class_keys (rings : List ExtRing) : List ClassKey :=
  (rings.foldl
    (fun (acc : List ClassKey × List Int) (ring : ExtRing) =>
      ring.classes.foldl
        (fun (acc : List ClassKey × List Int) (c : ExtClassSummary) =>
          let (keys, seen) := acc
          match c.class_id with
          | none => (keys, seen)
          | some cid =>
            if seen.contains cid then (keys, seen)
            else
              let cname := py_strip (c.class_name.getD "")
              let total := c.total_trips.getD 0
              if cname = "" ∨ total ≤ 0 then (keys, seen)
              else
                (keys ++ [⟨cid, cname, normalize_class_number c.class_number,
                  strip_to_none c.sponsor, c.prize_money,
                  strip_to_none c.class_type⟩], seen ++ [cid]))
        acc)
    ([], [])).1

/-- Model of `upsert_classes_and_build_class_map`. The source unpacks the return value
of `bulk_upsert_classes`, which show_class.py declares `-> None`; whenever
`class_rows` is nonempty the statement
`classes_inserted, classes_updated = await bulk_upsert_classes(...)` raises
TypeError, so the step only completes with no valid ring classes, returning
an empty map and zero counts. -/
def upsert_classes_and_build_class_map (db : DB) (farm_id : Nat) (rings : List ExtRing) :
    Option (DB × (Int → Option Nat) × Nat × Nat × Nat) :=
  let class_keys := collect_class_keys rings
  if class_keys.isEmpty then some (db, fun _ => none, 0, 0, 0)
  else none

/-- Model of `ENTRY_DETAIL_BATCH_SIZE`. -/
def ENTRY_DETAIL_BATCH_SIZE : Nat := 10

/-- Batch loop of `fetch_entry_details` (`for i in range(0, len, BATCH)`):
the fuel argument counts loop iterations (one per element is more than
enough, since each wave consumes at least one element). -/
def fetch_entry_details_go (f : Int → Option ExtEntryDetail) :
    Nat → List ExtEntrySummary → List ExtEntryDetail
  | 0, _ => []
  | _, [] => []
  | fuel + 1, es =>
    ((es.take ENTRY_DETAIL_BATCH_SIZE).filterMap (fun e => e.entry_id.bind f))
      ++ fetch_entry_details_go f fuel (es.drop ENTRY_DETAIL_BATCH_SIZE)

/-- Model of `fetch_entry_details`: batched detail fetches; entries without an id are
not fetched, and a failed fetch is logged and skipped — the function itself
never raises, it returns the successful details in order. -/
def fetch_entry_details (f : Int → Option ExtEntryDetail) (es : List ExtEntrySummary) :
    List ExtEntryDetail :=
  fetch_entry_details_go f es.length es

/-- Keyed lookup in an association list built like a Python dict
(a later binding for the same key wins). -/
def dict_get {α β : Type} [BEq α] (m : List (α × β)) (k : α) : Option β :=
  ((m.filter (fun p => p.1 == k)).getLast?).map (·.2)

/-- The distinct (name, class_number) keys referenced by entry details
(the Python set, in insertion order). -/
def class_keys_from_details (details : List ExtEntryDetail) :
    List (String × Option String) :=
  unique_preserving (details.foldl
    (fun acc ed => acc ++ ed.classes.filterMap (fun cl =>
      let name := py_strip (cl.name.getD "")
      if name = "" then none
      else some (name, normalize_class_number cl.class_number)))
    [])

/-- Model of `get_or_create_class_map_from_entry_details`: select existing classes,
create the missing (name, class_number) pairs, and return the final map. -/
def get_or_create_class_map_from_entry_details (db : DB) (farm_id : Nat)
    (details : List ExtEntryDetail) : DB × List ((String × Option String) × Nat) :=
  let keys_list := class_keys_from_details details
  if keys_list.isEmpty then (db, [])
  else
    let existing := get_classes_by_farm_keys db farm_id keys_list
    let m := existing.map (fun r => ((r.2.1, r.2.2), r.1))
    let missing := keys_list.filter (fun k => (dict_get m k).isNone)
    if missing.isEmpty then (db, m)
    else
      let db := bulk_upsert_classes db farm_id
        (missing.map (fun k => (k.1, k.2, none, none, none)))
      let existing2 := get_classes_by_farm_keys db farm_id keys_list
      (db, existing2.map (fun r => ((r.2.1, r.2.2), r.1)))

/-- Pre-resolution entry row built by `build_entry_rows_and_collect_entities`
(`_horse_name` / `_rider_name` still carried as placeholders). -/
structure DraftEntry where
  show_id : Option Nat := none
  event_id : Option Nat := none
  class_id : Option Nat := none
  api_entry_id : Option Int := none
  api_horse_id : Option Int := none
  api_rider_id : Option Int := none
  api_class_id : Option Int := none
  api_ring_id : Option Int := none
  api_trainer_id : Option Int := none
  back_number : Option String := none
  scheduled_date : Option String := none
  estimated_start : Option String := none
  status : String := "active"
  class_status : Option String := none
  horse_name : String := ""
  rider_name : String := ""
deriving DecidableEq

/-- Output of `build_entry_rows_and_collect_entities`; the horse / rider name
sets are modelled as insertion-ordered deduplicated lists. -/
structure BuildOut where
  entry_rows : List DraftEntry
  horse_names : List String
  rider_names : List String
  time_ring_list : List (String × String)
deriving DecidableEq

/-- The ring_number → ring_name dict derived from the schedule rings
(a later duplicate ring number wins; `.get(ring_num, "")` default). -/
def ring_name_for (rings : List ExtRing) (rnum : Int) : String :=
  ((rings.filterMap (fun r =>
    match r.ring_number with
    | some n => if n == rnum then some (r.ring_name.getD "") else none
    | none => none)).getLast?).getD ""

/-- The per-class body of `build_entry_rows_and_collect_entities`: one row per
(entry detail, class) when the class resolves by (name, class_number). -/
def build_row_for_class (rings : List ExtRing) (show_uuid : Nat)
    (ring_map : Int → Option Nat)
    (class_map : List ((String × Option String) × Nat))
    (api_entry_id api_horse_id api_trainer_id : Option Int)
    (back_number : Option String) (horse_name default_rider : String)
    (acc : List DraftEntry × List String × List (String × String))
    (cl : ExtEntryClass) :
    List DraftEntry × List String × List (String × String) :=
  let (rows, riders, time_ring) := acc
  let rn := py_strip (cl.rider_name.getD "")
  let riders := if rn ≠ "" then riders ++ [rn] else riders
  let estimated_start := estimated_start_utc cl.scheduled_date cl.schedule_starttime
  let ring_name :=
    match cl.ring with
    | some n => ring_name_for rings n
    | none => ""
  let time_ring :=
    match estimated_start with
    | some t => if ring_name ≠ "" then time_ring ++ [(t, ring_name)] else time_ring
    | none => time_ring
  let class_name := py_strip (cl.name.getD "")
  if class_name = "" then (rows, riders, time_ring)
  else
    match dict_get class_map (class_name, normalize_class_number cl.class_number) with
    | none => (rows, riders, time_ring)
    | some class_uuid =>
      let row : DraftEntry :=
        { show_id := some show_uuid
          event_id := cl.ring.bind ring_map
          class_id := some class_uuid
          api_entry_id := api_entry_id
          api_horse_id := api_horse_id
          api_rider_id := cl.rider_id
          api_class_id := cl.class_id
          api_ring_id := cl.ring
          api_trainer_id := api_trainer_id
          back_number := back_number
          scheduled_date := parse_date cl.scheduled_date
          estimated_start := estimated_start
          status := "active"
          class_status := none
          horse_name := horse_name
          rider_name := if rn ≠ "" then rn else default_rider }
      (rows ++ [row], riders, time_ring)

/-- Model of `build_entry_rows_and_collect_entities`: iterate the entry details,
building one row per (entry, resolvable class) plus one INACTIVE placeholder
row for entries with no classes, while collecting horse names, rider names
and (estimated start, ring name) pairs. -/
def build_entry_rows_and_collect_entities (details : List ExtEntryDetail)
    (rings : List ExtRing) (show_uuid : Nat) (ring_map : Int → Option Nat)
    (class_map : List ((String × Option String) × Nat))
    (sync_date : Option String) : BuildOut :=
  let out := details.foldl
    (fun (acc : List DraftEntry × List String × List String × List (String × String))
        (ed : ExtEntryDetail) =>
      let (rows, horses, riders, time_ring) := acc
      let entry_obj := ed.entry.getD {}
      let api_entry_id := entry_obj.entry_id
      let api_horse_id := entry_obj.horse_id
      let horse_name := py_strip (entry_obj.horse.getD "")
      let back_number := strip_to_none entry_obj.number
      let api_trainer_id := entry_obj.trainer_id
      let horses := if horse_name ≠ "" then horses ++ [horse_name] else horses
      let riders := riders ++ ed.entry_riders.filterMap (fun er =>
        let rn := py_strip (er.rider_name.getD "")
        if rn ≠ "" then some rn else none)
      let default_rider :=
        match ed.entry_riders with
        | er :: _ => er.rider_name.getD ""
        | [] => ""
      let api_rider_id_first :=
        match ed.entry_riders with
        | er :: _ => er.rider_id
        | [] => none
      let (rows2, riders2, time_ring2) := ed.classes.foldl
        (build_row_for_class rings show_uuid ring_map class_map api_entry_id
          api_horse_id api_trainer_id back_number horse_name default_rider)
        (rows, riders, time_ring)
      let rows3 :=
        if ed.classes.isEmpty ∧ horse_name ≠ "" then
          rows2 ++ [{ show_id := some show_uuid
                      event_id := none
                      class_id := none
                      api_entry_id := api_entry_id
                      api_horse_id := api_horse_id
                      api_rider_id := api_rider_id_first
                      api_class_id := none
                      api_ring_id := none
                      api_trainer_id := api_trainer_id
                      back_number := back_number
                      scheduled_date := sync_date
                      estimated_start := none
                      status := "inactive"
                      class_status := none
                      horse_name := horse_name
                      rider_name := default_rider }]
        else rows2
      (rows3, horses, riders2, time_ring2))
    ([], [], [], [])
  { entry_rows := out.1
    horse_names := unique_preserving out.2.1
    rider_names := unique_preserving out.2.2.1
    time_ring_list := out.2.2.2 }

/-- Model of `upsert_horses_and_riders_and_get_maps` (schedule.py step 7). The horses
upsert and the horse-name map build succeed, the riders upsert executes, and
then the source unpacks the return value of `bulk_upsert_riders` — which is
`None` (rider.py declares `-> None`) — so the statement
`riders_inserted, riders_updated = await bulk_upsert_riders(...)` always
raises TypeError. Modelled as `none`: the run aborts and rolls back. -/
def upsert_horses_and_riders_and_get_maps (db : DB) (farm_id : Nat)
    (horse_names rider_names : List String) :
    Option (DB × List (String × Nat) × List (String × Nat) × Nat × Nat) :=
  let (db1, _horses_inserted, _hu) := bulk_upsert_horses db farm_id horse_names
  let _horse_map := (get_horse_ids_by_names db1 farm_id horse_names).map
    (fun p => (p.2, p.1))
  let _db2 := bulk_upsert_riders db1 farm_id rider_names
  none

/-- Model of `ResolvedEntry` from a draft row and resolved ids. -/
def mk_resolved (horse_id : Nat) (rider_id : Option Nat) (row : DraftEntry) :
    ResolvedEntry :=
  { horse_id := horse_id, rider_id := rider_id, show_id := row.show_id,
    event_id := row.event_id, class_id := row.class_id,
    api_entry_id := row.api_entry_id, api_horse_id := row.api_horse_id,
    api_rider_id := row.api_rider_id, api_class_id := row.api_class_id,
    api_ring_id := row.api_ring_id, api_trainer_id := row.api_trainer_id,
    back_number := row.back_number, scheduled_date := row.scheduled_date,
    estimated_start := row.estimated_start, status := row.status,
    class_status := row.class_status }

/-- Model of `resolve_entry_rows_and_upsert`: substitute horse / rider ids for the name
placeholders — an unresolved horse name falls back to an arbitrary resolved
horse (the first map value) — drop rows that still have no horse id, and bulk
upsert the remainder. -/
def resolve_entry_rows_and_upsert (db : DB) (entry_rows : List DraftEntry)
    (horse_map rider_map : List (String × Nat)) :
    Option (DB × Nat × Nat × Nat) :=
  let valid := entry_rows.filterMap (fun row =>
    let horse_id0 := dict_get horse_map row.horse_name
    let rider_id := if row.rider_name = "" then none else dict_get rider_map row.rider_name
    let horse_id :=
      match horse_id0 with
      | some h => some h
      | none =>
        match horse_map with
        | p :: _ => some p.2
        | [] => none
    horse_id.map (fun h => mk_resolved h rider_id row))
  (bulk_upsert_entries db valid).map
    (fun r => (r.1, valid.length, r.2.1, r.2.2))

/-- Summary skeleton of a completed Flow 1 run. Only the count fields any
claim mentions are modelled; the run never reaches this construction because
of the rider-unpack TypeError, so the derived first/last-class fields
of `build_summary` are omitted. -/
structure RunSummary where
  date : String
  show_name : String
  unique_horse_count : Nat
  unique_class_count : Nat
  total_synced_entries : Nat
  show_inserted : Nat
  show_updated : Nat
  horses_inserted : Nat
  riders_inserted : Nat
  events_inserted : Nat
  classes_inserted : Nat
  entries_inserted : Nat
  entries_updated : Nat
deriving DecidableEq

/-- Model of `run_daily_schedule` (schedule.py): the Flow 1 orchestrator as one
transactional unit of work. `none` is an exception escaping the `try` block:
the session is rolled back (the caller keeps the pre-run database) and the
error propagates. -/
def run_daily_schedule (cfg : FlowConfig) (today : String)
    (date_override : Option String) (ext : ExtState) (db : DB) :
    Option (DB × RunSummary) := do
  let sync_date_str := resolve_sync_date today date_override
  let gc := get_or_create_farm db cfg.farm_name (parse_customer_id cfg.customer_id)
  let farm_id := gc.1
  let _token ← ext.token
  let step ← fetch_schedule_and_upsert_show gc.2 farm_id ext
  let ev := upsert_events_and_build_ring_map step.db farm_id step.rings
  let cs ← upsert_classes_and_build_class_map ev.1 farm_id step.rings
  let entries_list ← ext.entries_my
  let details := fetch_entry_details ext.entry_detail entries_list
  let gm := get_or_create_class_map_from_entry_details cs.1 farm_id details
  let bo := build_entry_rows_and_collect_entities details step.rings step.show_uuid
    ev.2.1 gm.2 (some sync_date_str)
  let hm ← upsert_horses_and_riders_and_get_maps gm.1 farm_id bo.horse_names bo.rider_names
  let res ← resolve_entry_rows_and_upsert hm.1 bo.entry_rows hm.2.1 hm.2.2.1
  some (res.1,
    { date := sync_date_str
      show_name := step.show_name
      unique_horse_count := bo.horse_names.length
      unique_class_count := gm.2.length
      total_synced_entries := res.2.1
      show_inserted := step.show_inserted
      show_updated := step.show_updated
      horses_inserted := hm.2.2.2.1
      riders_inserted := hm.2.2.2.2
      events_inserted := ev.2.2.1
      classes_inserted := cs.2.2.2.1
      entries_inserted := res.2.2.1
      entries_updated := res.2.2.2 })

/-! Claim theorems about Flow 1. -/

lemma upsert_horses_and_riders_always_none (db : DB) (farm_id : Nat)
    (horse_names rider_names : List String) :
    upsert_horses_and_riders_and_get_maps db farm_id horse_names rider_names = none :=
  rfl

lemma opt_bind_none {α β : Type} (x : Option α) (f : α → Option β)
    (h : ∀ a, f a = none) : x >>= f = none := by
  cases x <;> simp [h]

/-- C3 evaluation: no Flow 1 run ever completes. Step 7 unconditionally
unpacks the `None` returned by `bulk_upsert_riders` (rider.py declares
`-> None` while schedule.py expects a counts pair), raising TypeError, so
`run_daily_schedule` always rolls back and re-raises — in particular no
second run ever produces a summary whose inserted counts could be compared. -/
theorem run_daily_schedule_never_completes (cfg : FlowConfig) (today : String)
    (date_override : Option String) (ext : ExtState) (db : DB) :
    run_daily_schedule cfg today date_override ext db = none := by
  unfold run_daily_schedule
  apply opt_bind_none; intro tok
  apply opt_bind_none; intro step
  apply opt_bind_none; intro cs
  apply opt_bind_none; intro entries_list
  rfl

lemma fetch_entry_details_go_spec (f : Int → Option ExtEntryDetail) :
    ∀ (fuel : Nat) (es : List ExtEntrySummary), es.length ≤ fuel →
      fetch_entry_details_go f fuel es = es.filterMap (fun e => e.entry_id.bind f) := by
  intro fuel
  induction fuel with
  | zero =>
    intro es h
    have : es = [] := List.eq_nil_of_length_eq_zero (Nat.le_zero.mp h)
    subst this; rfl
  | succ n ih =>
    intro es h
    cases es with
    | nil => rfl
    | cons e rest =>
      have hstep : fetch_entry_details_go f (n + 1) (e :: rest) =
          (((e :: rest).take ENTRY_DETAIL_BATCH_SIZE).filterMap
            (fun e => e.entry_id.bind f))
            ++ fetch_entry_details_go f n ((e :: rest).drop ENTRY_DETAIL_BATCH_SIZE) := rfl
      rw [hstep, ih]
      · rw [← List.filterMap_append, List.take_append_drop]
      · simp only [List.length_drop, List.length_cons, ENTRY_DETAIL_BATCH_SIZE]
        simp only [List.length_cons] at h
        omega

/-- Batching is transparent: the detail stage returns exactly the details of
entries that have an id and whose fetch succeeded, in order; failures are
skipped, never propagated. -/
lemma fetch_entry_details_spec (f : Int → Option ExtEntryDetail)
    (es : List ExtEntrySummary) :
    fetch_entry_details f es = es.filterMap (fun e => e.entry_id.bind f) :=
  fetch_entry_details_go_spec f es.length es (Nat.le_refl _)

def c6_detail : ExtEntryDetail :=
  { entry := some { entry_id := some 2, horse := some "Bella" } }

/-- Detail fetch that fails (adapter error) for entry 1 and succeeds for
entry 2. -/
def c6_fetch : Int → Option ExtEntryDetail := fun eid =>
  if eid = 2 then some c6_detail else none

/-- C6 counterexample: an adapter error while fetching one entry's detail is
not fatal and is not propagated — `fetch_entry_details` catches it, skips
that entry, and returns the remaining details normally, contradicting the
claim that every adapter error, including entry-detail failures, aborts the
whole run. -/
theorem entry_detail_failure_skipped :
    c6_fetch 1 = none ∧
    fetch_entry_details c6_fetch [{ entry_id := some 1 }, { entry_id := some 2 }] =
      [c6_detail] := by
  constructor
  · rfl
  · rw [fetch_entry_details_spec]
    rfl

/-- C6 amended: in Flow 1, adapter errors from the top-level calls are fatal —
a failed token acquisition aborts the run with rollback, and a failed (or
show-id-less) schedule fetch aborts its stage and hence the run — but a
failure fetching an individual entry detail is caught inside
`fetch_entry_details`: that stage never raises; it returns exactly the
successfully fetched details in order, skipping the failed entries. -/
theorem flow1_adapter_error_scope (cfg : FlowConfig) (today : String)
    (date_override : Option String) (ext : ExtState) (db : DB) (farm_id : Nat)
    (f : Int → Option ExtEntryDetail) (es : List ExtEntrySummary) :
    fetch_entry_details f es = es.filterMap (fun e => e.entry_id.bind f) ∧
    (ext.schedule = none → fetch_schedule_and_upsert_show db farm_id ext = none) ∧
    (ext.token = none → run_daily_schedule cfg today date_override ext db = none) := by
  refine ⟨fetch_entry_details_spec f es, ?_, ?_⟩
  · intro h
    unfold fetch_schedule_and_upsert_show
    rw [h]
  · intro h
    unfold run_daily_schedule
    rw [h]
    rfl

def c6_summaries : List ExtEntrySummary := [{ entry_id := some 1 }, { entry_id := some 2 }]

def c6_db : DB := {}

def c6_cfg : FlowConfig := ⟨"Kear Farm", some "15"⟩

def c6_ext_sched_fail : ExtState :=
  { token := some "tok", schedule := none, entries_my := some [],
    entry_detail := fun _ => none }

def c6_ext_token_fail : ExtState :=
  { token := none, schedule := none, entries_my := some [],
    entry_detail := fun _ => none }

/-- Witness for the amended C6 at concrete inputs. -/
theorem flow1_adapter_error_scope_witness :
    fetch_entry_details c6_fetch c6_summaries =
      c6_summaries.filterMap (fun e => e.entry_id.bind c6_fetch) ∧
    fetch_schedule_and_upsert_show c6_db 1 c6_ext_sched_fail = none ∧
    run_daily_schedule c6_cfg "2026-02-19" none c6_ext_token_fail c6_db = none :=
  ⟨(flow1_adapter_error_scope c6_cfg "2026-02-19" none c6_ext_sched_fail c6_db 1
      c6_fetch c6_summaries).1,
    (flow1_adapter_error_scope c6_cfg "2026-02-19" none c6_ext_sched_fail c6_db 1
      c6_fetch c6_summaries).2.1 rfl,
    (flow1_adapter_error_scope c6_cfg "2026-02-19" none c6_ext_token_fail c6_db 1
      c6_fetch c6_summaries).2.2 rfl⟩

/-! C2: the failing pruning scenario. A previous sync left two entries for
the (show, 2026-02-19) window; the source now reports only the first. -/

def c2_entry_kept : EntryRow :=
  { id := 5, horse_id := 3, show_id := some 2, class_id := some 9,
    api_entry_id := some 41, api_class_id := some 11,
    scheduled_date := some "2026-02-19" }

def c2_entry_stale : EntryRow :=
  { id := 6, horse_id := 4, show_id := some 2, class_id := some 10,
    api_entry_id := some 42, api_class_id := some 12,
    scheduled_date := some "2026-02-19" }

def c2_db : DB :=
  { next_id := 7
    farms := [⟨1, "Kear Farm", some 15⟩]
    horses := [⟨3, 1, "Atlas"⟩, ⟨4, 1, "Bella"⟩]
    shows := [⟨2, 1, some 601, "WEF 1", some "2026-02-18", some "2026-02-22"⟩]
    entries := [c2_entry_kept, c2_entry_stale] }

/-- The valid rows the second sync upserts for the covered day (only the
entry the source still reports). -/
def c2_rows : List ResolvedEntry :=
  [{ horse_id := 3, show_id := some 2, class_id := some 9,
     api_entry_id := some 41, api_class_id := some 11,
     scheduled_date := some "2026-02-19" }]

def c2_cfg : FlowConfig := ⟨"Kear Farm", some "15"⟩

/-- Second-sync external state: the schedule still lists show 601; the only
entry detail reported is the one backing `c2_entry_kept`. -/
def c2_ext : ExtState :=
  { token := some "tok"
    schedule := some
      { «show» := some
          { show_id := some 601
            show_name := some "WEF 1"
            start_date := some "2026-02-18"
            end_date := some "2026-02-22" }
        rings := [] }
    entries_my := some [{ entry_id := some 41 }]
    entry_detail := fun eid =>
      if eid = 41 then
        some { entry := some
                 { entry_id := some 41
                   horse_id := some 9001
                   horse := some "Atlas" }
               classes := []
               entry_riders := [] }
      else none }

/-- C2 evaluation at the failing input: re-syncing the same (show, date)
window after the source stopped reporting `c2_entry_stale` deletes nothing —
`run_daily_schedule` contains no call to `delete_stale_entries` and, in fact,
aborts (rolls back) before committing anything, so the stale Entry row
survives every re-sync. `delete_stale_entries` itself, called with the day's
surviving rows as its docstring prescribes, would have removed exactly the
stale row. -/
theorem stale_entries_not_pruned :
    run_daily_schedule c2_cfg "2026-02-19" none c2_ext c2_db = none ∧
    c2_entry_stale ∈ c2_db.entries ∧
    (delete_stale_entries c2_db c2_rows).1.entries = [c2_entry_kept] ∧
    (delete_stale_entries c2_db c2_rows).2 = 1 := by
  refine ⟨?_, by decide, by decide, by decide⟩
  unfold run_daily_schedule
  apply opt_bind_none; intro tok
  apply opt_bind_none; intro step
  apply opt_bind_none; intro cs
  apply opt_bind_none; intro entries_list
  rfl

/-! C4: two-tier Entry uniqueness as an invariant. -/

/-- The claim's pairwise condition: two entry rows with the same
(horse_id, show_id) may not both be class-less, and may not reference the
same non-null api_class_id — exactly the two partial unique indexes. -/
def entry_pair_ok (a b : EntryRow) : Prop :=
  ¬ (a.horse_id = b.horse_id ∧ a.show_id = b.show_id ∧
     a.api_class_id = none ∧ b.api_class_id = none) ∧
  ¬ (∃ c, a.horse_id = b.horse_id ∧ a.show_id = b.show_id ∧
     a.api_class_id = some c ∧ b.api_class_id = some c)

instance (a b : EntryRow) : Decidable (entry_pair_ok a b) := by
  unfold entry_pair_ok
  have : Decidable (∃ c, a.horse_id = b.horse_id ∧ a.show_id = b.show_id ∧
      a.api_class_id = some c ∧ b.api_class_id = some c) := by
    refine decidable_of_iff (a.horse_id = b.horse_id ∧ a.show_id = b.show_id ∧
      a.api_class_id.isSome ∧ a.api_class_id = b.api_class_id) ?_
    constructor
    · rintro ⟨h1, h2, h3, h4⟩
      obtain ⟨c, hc⟩ := Option.isSome_iff_exists.mp h3
      exact ⟨c, h1, h2, hc, by rw [← h4, hc]⟩
    · rintro ⟨c, h1, h2, h3, h4⟩
      exact ⟨h1, h2, by simp [h3], by rw [h3, h4]⟩
  exact instDecidableAnd

/-- The two-tier uniqueness invariant over the entries table. -/
def two_tier_unique (es : List EntryRow) : Prop :=
  es.Pairwise entry_pair_ok

instance (es : List EntryRow) : Decidable (two_tier_unique es) :=
  List.instDecidablePairwise es

lemma entry_pair_ok_iff_key (a b : EntryRow) :
    entry_pair_ok a b ↔ entry_key a ≠ entry_key b := by
  unfold entry_pair_ok entry_key
  constructor
  · rintro ⟨h1, h2⟩ hk
    simp only [Prod.mk.injEq] at hk
    obtain ⟨k1, k2, k3⟩ := hk
    cases hapi : a.api_class_id with
    | none => exact h1 ⟨k1, k2, hapi, by rw [← k3, hapi]⟩
    | some c => exact h2 ⟨c, k1, k2, hapi, by rw [← k3, hapi]⟩
  · intro hk
    constructor
    · rintro ⟨h1, h2, h3, h4⟩
      exact hk (by simp [h1, h2, h3, h4])
    · rintro ⟨c, h1, h2, h3, h4⟩
      exact hk (by simp [h1, h2, h3, h4])

lemma two_tier_iff_keys (es : List EntryRow) :
    two_tier_unique es ↔ es.Pairwise (fun a b => entry_key a ≠ entry_key b) := by
  unfold two_tier_unique
  constructor
  · exact fun h => h.imp (fun hab => (entry_pair_ok_iff_key _ _).mp hab)
  · exact fun h => h.imp (fun hab => (entry_pair_ok_iff_key _ _).mpr hab)

lemma pairwise_key_map (es : List EntryRow) (f : EntryRow → EntryRow)
    (hf : ∀ e, entry_key (f e) = entry_key e)
    (h : es.Pairwise (fun a b => entry_key a ≠ entry_key b)) :
    (es.map f).Pairwise (fun a b => entry_key a ≠ entry_key b) := by
  rw [List.pairwise_map]
  exact h.imp (fun hab => by rw [hf, hf]; exact hab)

lemma entry_key_new_entry_row (nid : Nat) (r : ResolvedEntry) :
    entry_key (new_entry_row nid r) = new_key r := rfl

lemma apply_with_class_row_pairwise (es : List EntryRow) (nid : Nat) (r : ResolvedEntry)
    (h : es.Pairwise (fun a b => entry_key a ≠ entry_key b)) :
    (apply_with_class_row (es, nid) r).1.Pairwise
      (fun a b => entry_key a ≠ entry_key b) := by
  unfold apply_with_class_row
  dsimp only
  split
  · exact pairwise_key_map es _ (fun e => by split <;> rfl) h
  · rename_i hany
    simp only [List.pairwise_append]
    refine ⟨h, List.pairwise_singleton _ _, ?_⟩
    intro a ha b hb
    simp only [List.mem_singleton] at hb
    subst hb
    rw [entry_key_new_entry_row]
    intro hk
    exact hany (List.any_eq_true.mpr ⟨a, ha, by rw [beq_iff_eq]; exact hk⟩)

lemma apply_no_class_row_pairwise (es : List EntryRow) (nid : Nat) (r : ResolvedEntry)
    (hr : r.api_class_id = none)
    (h : es.Pairwise (fun a b => entry_key a ≠ entry_key b)) :
    (apply_no_class_row (es, nid) r).1.Pairwise
      (fun a b => entry_key a ≠ entry_key b) := by
  unfold apply_no_class_row
  dsimp only
  split
  · exact pairwise_key_map es _ (fun e => by split <;> rfl) h
  · rename_i hany
    simp only [List.pairwise_append]
    refine ⟨h, List.pairwise_singleton _ _, ?_⟩
    intro a ha b hb
    simp only [List.mem_singleton] at hb
    subst hb
    rw [entry_key_new_entry_row]
    intro hk
    apply hany
    apply List.any_eq_true.mpr
    refine ⟨a, ha, ?_⟩
    unfold entry_key new_key at hk
    simp only [Prod.mk.injEq] at hk
    obtain ⟨k1, k2, k3⟩ := hk
    simp [k1, k2, k3, hr]

lemma foldl_with_class_pairwise (l : List ResolvedEntry) (st : List EntryRow × Nat)
    (h : st.1.Pairwise (fun a b => entry_key a ≠ entry_key b)) :
    (l.foldl apply_with_class_row st).1.Pairwise
      (fun a b => entry_key a ≠ entry_key b) := by
  induction l generalizing st with
  | nil => exact h
  | cons r l ih =>
    exact ih (apply_with_class_row st r)
      (by rcases st with ⟨es, nid⟩; exact apply_with_class_row_pairwise es nid r h)

lemma foldl_no_class_pairwise (l : List ResolvedEntry) (st : List EntryRow × Nat)
    (hl : ∀ r ∈ l, r.api_class_id = none)
    (h : st.1.Pairwise (fun a b => entry_key a ≠ entry_key b)) :
    (l.foldl apply_no_class_row st).1.Pairwise
      (fun a b => entry_key a ≠ entry_key b) := by
  induction l generalizing st with
  | nil => exact h
  | cons r l ih =>
    refine ih (apply_no_class_row st r) (fun x hx => hl x (by simp [hx])) ?_
    rcases st with ⟨es, nid⟩
    exact apply_no_class_row_pairwise es nid r (hl r (by simp)) h

lemma delete_stale_fold_pairwise (surviving : List (Nat × Option Nat × Option Int))
    (covered : List (Nat × String)) : ∀ (st : DB × Nat),
    st.1.entries.Pairwise (fun a b => entry_key a ≠ entry_key b) →
    ((covered.foldl (delete_stale_step surviving) st).1.entries.Pairwise
      (fun a b => entry_key a ≠ entry_key b)) := by
  induction covered with
  | nil => intro st h; exact h
  | cons p ps ih =>
    intro st h
    rw [List.foldl_cons]
    apply ih
    exact List.Pairwise.sublist (List.filter_sublist _) h

lemma process_entry_key_preserved (ctx : ClassCtx) (trips : List Trip) (e : LoadedEntry) :
    entry_key (process_entry ctx trips e).row = entry_key e.row := by
  unfold process_entry
  cases trip_for_entry trips e.row.api_entry_id <;> rfl

/-- C4: two-tier Entry uniqueness is preserved by every operation that
touches entry rows — the Flow 1 bulk upsert (whose two ON CONFLICT targets
mirror the two partial unique indexes), the stale-entry deletion, and the
Flow 2 in-place live-state update (which never rewrites horse_id, show_id or
api_class_id). -/
theorem entry_two_tier_invariant :
    (∀ (db : DB) (rows : List ResolvedEntry) (db' : DB) (ins upd : Nat),
      two_tier_unique db.entries →
      bulk_upsert_entries db rows = some (db', ins, upd) →
      two_tier_unique db'.entries) ∧
    (∀ (db : DB) (rows : List ResolvedEntry),
      two_tier_unique db.entries →
      two_tier_unique (delete_stale_entries db rows).1.entries) ∧
    (∀ (entries : List LoadedEntry) (class_data : Option ClassData),
      two_tier_unique (entries.map (·.row)) →
      two_tier_unique (process_one_class_with_data entries class_data).rows) := by
  refine ⟨?_, ?_, ?_⟩
  · intro db rows db' ins upd hinv heq
    unfold bulk_upsert_entries at heq
    split at heq
    · simp only [Option.some.injEq, Prod.mk.injEq] at heq
      obtain ⟨hdb, -, -⟩ := heq
      subst hdb
      exact hinv
    · dsimp only at heq
      split at heq
      · exact absurd heq (by simp)
      · split at heq
        · exact absurd heq (by simp)
        · simp only [Option.some.injEq, Prod.mk.injEq] at heq
          obtain ⟨hdb, -, -⟩ := heq
          subst hdb
          rw [two_tier_iff_keys] at hinv ⊢
          refine foldl_no_class_pairwise _ _ ?_ ?_
          · intro r hr
            have := List.of_mem_filter hr
            simpa [Option.isNone_iff_eq_none] using this
          · exact foldl_with_class_pairwise _ _ hinv
  · intro db rows hinv
    rw [two_tier_iff_keys] at hinv ⊢
    unfold delete_stale_entries
    split
    · exact hinv
    · exact delete_stale_fold_pairwise _ _ (db, 0) hinv
  · intro entries class_data hinv
    rw [two_tier_iff_keys] at hinv ⊢
    match entries, class_data with
    | [], _ => exact List.Pairwise.nil
    | first :: rest, none => exact hinv
    | first :: rest, some cd =>
      show (((first :: rest).map (process_entry _ _)).map (·.row)).Pairwise _
      rw [List.map_map, List.pairwise_map]
      rw [List.pairwise_map] at hinv
      exact hinv.imp (fun hab => by
        simp only [Function.comp]
        rw [process_entry_key_preserved, process_entry_key_preserved]
        exact hab)

def c4_e0 : EntryRow :=
  { id := 8, horse_id := 1, show_id := some 2, api_class_id := some 5 }

def c4_e1 : EntryRow :=
  { id := 9, horse_id := 1, show_id := some 2, api_class_id := none,
    status := "inactive" }

def c4_db : DB := { next_id := 10, entries := [c4_e0, c4_e1] }

def c4_row : ResolvedEntry :=
  { horse_id := 3, show_id := some 2, api_class_id := some 6 }

def c4_db2 : DB := { next_id := 11, entries := [c4_e0, c4_e1, new_entry_row 10 c4_row] }

/-- Witness for C4 at concrete inputs: a database holding a with-class and a
class-less entry for the same (horse, show) satisfies the invariant, and an
inserting upsert, a stale-deletion pass and a Flow 2 update all preserve it. -/
theorem entry_two_tier_invariant_witness :
    two_tier_unique c4_db.entries ∧
    bulk_upsert_entries c4_db [c4_row] = some (c4_db2, 1, 0) ∧
    two_tier_unique c4_db2.entries ∧
    two_tier_unique (delete_stale_entries c4_db [c4_row]).1.entries ∧
    two_tier_unique (process_one_class_with_data
      [⟨c4_e0, some "Atlas", none, none, some 1⟩]
      (some { class_related_data := some { status := some "Underway" },
              trips := [] })).rows :=
  ⟨by decide, by decide,
    entry_two_tier_invariant.1 c4_db [c4_row] c4_db2 1 0 (by decide) (by decide),
    entry_two_tier_invariant.2.1 c4_db [c4_row] (by decide),
    entry_two_tier_invariant.2.2 [⟨c4_e0, some "Atlas", none, none, some 1⟩]
      (some { class_related_data := some { status := some "Underway" }, trips := [] })
      (by decide)⟩

end FarmApp
